import Mathlib

/-!
# Verification of the sportscore match-lifecycle engine

Shallow embedding of the match lifecycle / live-event engine of the
`sportscore_refactor` repository (`src/services/match/MatchService.js` and
`src/socket/index.js`), with theorems settling the frozen claims about it.

Modelling conventions:
* SQL rows become Lean structures; tables become lists of rows inside a `DB`
  record.  `AUTO_INCREMENT` ids for matches are modelled by a `nextMatchId`
  counter; ids of `match_events` rows are not modelled (the ledger is an
  append-only list).
* `database.transaction` (mysql2 `beginTransaction`/`commit`/`rollback`) is
  modelled by `Except`-returning functions plus `...Tx` wrappers that return
  the original state on error — exactly the rollback semantics of
  `Database.transaction` in `src/config/database.js`.
* SQL `SELECT ... WHERE id = ?` becomes `List.find?`; `UPDATE ... WHERE`
  becomes `List.map` with a guarded record update; `DELETE ... WHERE` becomes
  `List.filter`.
* Wall-clock columns (`created_at`, `updated_at`) are not modelled; `waktu`
  and the socket-layer timestamps are minutes / milliseconds as `Nat`.
* The status strings of the source are kept: `belum_main` (SCHEDULED),
  `sedang_main` (LIVE), `selesai` (FINISHED), `cancelled`; a `paused`
  constructor stands for the PAUSED state written by `LiveMatchService`
  (a file not present under `src/`).
-/

/-- Lifecycle status stored in `matches.status`. -/
inductive MatchStatus where
  | belum_main
  | sedang_main
  | paused
  | selesai
  | cancelled
deriving Repr, DecidableEq

/-- Event kinds accepted by the controller validator
(`jenis ∈ {GOL, BUNUH_DIRI, KUNING, MERAH}`). -/
inductive Jenis where
  | GOL
  | BUNUH_DIRI
  | KUNING
  | MERAH
deriving Repr, DecidableEq

/-- The distinct `AppError`s thrown by `MatchService` (one constructor per
distinct error site / message). -/
inductive AppErr where
  | matchNotFound
  | matchNotInProgress
  | playerNotEligible
  | cannotModifyFinished
  | noValidFields
  | cannotDeleteInProgress
  | categoryNotFound
  | unsupportedFormat
  | insufficientQualifiers
  | insufficientTeams
deriving Repr, DecidableEq

/-- A row of the `matches` table. -/
structure MatchRow where
  id : Nat
  id_kategori : Nat
  team_1 : Nat
  team_2 : Nat
  waktu : Nat
  grup : Option String
  status : MatchStatus
  skor_1 : Nat
  skor_2 : Nat
  created_by : Nat
  updated_by : Option Nat
deriving Repr, DecidableEq

/-- A row of the `match_events` table (the append-only ledger). -/
structure MatchEventRow where
  id_match : Nat
  id_kategori : Nat
  id_team : Nat
  id_pemain : Nat
  jenis : Jenis
  menit : Nat
  created_by : Nat
deriving Repr, DecidableEq

/-- A row of `pemain_event`: a player's registration (and career-goal counter
`jumlah_gol`) for a team within a category. -/
structure PemainEventRow where
  id_pemain : Nat
  id_kategori : Nat
  id_team : Nat
  jumlah_gol : Nat
deriving Repr, DecidableEq

/-- A row of `match_lineup`. -/
structure MatchLineupRow where
  id_match : Nat
  id_pemain_event : Nat
  is_starting : Bool
deriving Repr, DecidableEq

/-- A row of `match_staff_lineup`. -/
structure MatchStaffLineupRow where
  id_match : Nat
  id_staff_event : Nat
deriving Repr, DecidableEq

/-- A row of `event_categories` (only the fields the match service reads). -/
structure CategoryRow where
  id : Nat
  tipe_final : String
deriving Repr, DecidableEq

/-- A row of the `brackets` table. -/
structure BracketRow where
  id_kategori : Nat
  round : String
  kode : String
  team_1 : Option Nat
  team_2 : Option Nat
  match_id : Option Nat
  status : String
deriving Repr, DecidableEq

/-- The persistent store: the tables touched by `MatchService`. -/
structure DB where
  «matches» : List MatchRow
  match_events : List MatchEventRow
  pemain_event : List PemainEventRow
  match_lineup : List MatchLineupRow
  match_staff_lineup : List MatchStaffLineupRow
  event_categories : List CategoryRow
  brackets : List BracketRow
  nextMatchId : Nat
deriving Repr, DecidableEq

/-- The body of an `addMatchEvent` request (`eventData`). -/
structure EventData where
  id_team : Nat
  id_pemain : Nat
  jenis : Jenis
  menit : Nat
deriving Repr, DecidableEq

/-- `MatchService.getMatchById`: `SELECT ... FROM matches m ... WHERE m.id = ?`
(the display-name joins are irrelevant to the claims and not modelled). -/
def getMatchById (db : DB) (id : Nat) : Option MatchRow :=
  db.«matches».find? (fun m => m.id == id)

/-- The player-eligibility query of `addMatchEvent`:
`SELECT pe.id_team FROM pemain_event pe WHERE pe.id_pemain = ? AND
pe.id_kategori = ? AND pe.id_team IN (?, ?)` — note that it constrains the
player's registered team to be one of the two *match* teams and never looks
at `eventData.id_team`. -/
def findEligiblePlayer (db : DB) (pid kat t1 t2 : Nat) : Option PemainEventRow :=
  db.pemain_event.find? (fun pe =>
    pe.id_pemain == pid && pe.id_kategori == kat && (pe.id_team == t1 || pe.id_team == t2))

/-- `MatchService.updateScoreFromEvent`: increments `skor_1` when the scoring
team equals `match.team_1` and `skor_2` otherwise
(`scoreField = scoringTeam === match.team_1 ? 'skor_1' : 'skor_2'`). -/
def updateScoreFromEvent (db : DB) (matchId scoringTeam : Nat) (m : MatchRow) : DB :=
  { db with «matches» := db.«matches».map (fun r =>
      if r.id = matchId then
        (if scoringTeam = m.team_1 then { r with skor_1 := r.skor_1 + 1 }
         else { r with skor_2 := r.skor_2 + 1 })
      else r) }

/-- `MatchService.updatePlayerStats`: bumps `jumlah_gol` of every
`pemain_event` row of the player in the category, but only for `GOL`. -/
def updatePlayerStats (db : DB) (playerId kategoriId : Nat) (eventType : Jenis) : DB :=
  if eventType = Jenis.GOL then
    { db with pemain_event := db.pemain_event.map (fun pe =>
        if pe.id_pemain = playerId ∧ pe.id_kategori = kategoriId then
          { pe with jumlah_gol := pe.jumlah_gol + 1 }
        else pe) }
  else db

/-- `MatchService.addMatchEvent` (the body run inside `database.transaction`):
validates the match is live and the player registered, inserts the ledger row,
then derives score / stat deltas. -/
def addMatchEvent (db : DB) (matchId : Nat) (e : EventData) (userId : Nat) :
    Except AppErr (DB × MatchEventRow) :=
  match getMatchById db matchId with
  | none => .error .matchNotFound
  | some m =>
    if m.status ≠ MatchStatus.sedang_main then .error .matchNotInProgress
    else
      match findEligiblePlayer db e.id_pemain m.id_kategori m.team_1 m.team_2 with
      | none => .error .playerNotEligible
      | some _ =>
        let ev : MatchEventRow :=
          { id_match := matchId, id_kategori := m.id_kategori, id_team := e.id_team,
            id_pemain := e.id_pemain, jenis := e.jenis, menit := e.menit,
            created_by := userId }
        let db1 := { db with match_events := db.match_events ++ [ev] }
        let db2 :=
          if e.jenis = Jenis.GOL then
            updateScoreFromEvent db1 matchId e.id_team m
          else if e.jenis = Jenis.BUNUH_DIRI then
            let opponentTeam := if e.id_team = m.team_1 then m.team_2 else m.team_1
            updateScoreFromEvent db1 matchId opponentTeam m
          else db1
        let db3 :=
          if e.jenis = Jenis.GOL ∨ e.jenis = Jenis.BUNUH_DIRI then
            updatePlayerStats db2 e.id_pemain m.id_kategori e.jenis
          else db2
        .ok (db3, ev)

/-- `addMatchEvent` as observed through `database.transaction`: a thrown
`AppError` rolls the unit of work back, so the caller sees the original
state together with the error. -/
def addMatchEventTx (db : DB) (matchId : Nat) (e : EventData) (userId : Nat) :
    DB × Except AppErr MatchEventRow :=
  match addMatchEvent db matchId e userId with
  | .error err => (db, .error err)
  | .ok (db', ev) => (db', .ok ev)

/-- Runs a sequence of `addMatchEvent` calls, stopping at the first failure. -/
def runEvents (db : DB) (matchId : Nat) (userId : Nat) : List EventData → Option DB
  | [] => some db
  | e :: es =>
    match addMatchEvent db matchId e userId with
    | .ok (db', _) => runEvents db' matchId userId es
    | .error _ => none

/-! ## C2 — guards of `addMatchEvent` -/

/-- The eligibility rule as the specification words it: the player must be
registered for the match's category under the *event's* team, or — for
own-goal attribution — under the opposing team. -/
def specEligible (db : DB) (m : MatchRow) (e : EventData) : Prop :=
  (∃ pe ∈ db.pemain_event, pe.id_pemain = e.id_pemain ∧ pe.id_kategori = m.id_kategori ∧
      pe.id_team = e.id_team) ∨
  (e.jenis = Jenis.BUNUH_DIRI ∧
    ∃ pe ∈ db.pemain_event, pe.id_pemain = e.id_pemain ∧ pe.id_kategori = m.id_kategori ∧
      pe.id_team = (if e.id_team = m.team_1 then m.team_2 else m.team_1))

/-- The eligibility rule the code implements: registered in the match's
category under either of the match's two teams, ignoring `eventData.id_team`
and the event kind. -/
def codeEligible (db : DB) (m : MatchRow) (e : EventData) : Prop :=
  ∃ pe ∈ db.pemain_event, pe.id_pemain = e.id_pemain ∧ pe.id_kategori = m.id_kategori ∧
    (pe.id_team = m.team_1 ∨ pe.id_team = m.team_2)

/-- Claim C2 as stated: `MatchNotInProgress` iff the match exists and is not
live; on a live match, `PlayerNotEligible` iff `specEligible` fails; every
failure leaves the store unchanged. -/
def C2Statement : Prop :=
  ∀ (db : DB) (mid : Nat) (e : EventData) (uid : Nat),
    ((addMatchEvent db mid e uid = .error .matchNotInProgress) ↔
      (∃ m, getMatchById db mid = some m ∧ m.status ≠ MatchStatus.sedang_main)) ∧
    (∀ m, getMatchById db mid = some m → m.status = MatchStatus.sedang_main →
      ((addMatchEvent db mid e uid = .error .playerNotEligible) ↔ ¬ specEligible db m e)) ∧
    (∀ err, addMatchEvent db mid e uid = .error err →
      addMatchEventTx db mid e uid = (db, .error err))

/-- Live match between teams 1 and 2 in category 5; player 7 is registered
under team 2 only. -/
def dbC2 : DB :=
  { «matches» := [{ id := 1, id_kategori := 5, team_1 := 1, team_2 := 2, waktu := 0,
                    grup := none, status := .sedang_main, skor_1 := 0, skor_2 := 0,
                    created_by := 0, updated_by := none }],
    match_events := [], pemain_event := [{ id_pemain := 7, id_kategori := 5, id_team := 2, jumlah_gol := 0 }],
    match_lineup := [], match_staff_lineup := [], event_categories := [], brackets := [],
    nextMatchId := 2 }

/-- A GOAL credited to team 1 scored by player 7 (who is registered only
under team 2). -/
def eC2 : EventData := { id_team := 1, id_pemain := 7, jenis := .GOL, menit := 10 }

def mC2 : MatchRow :=
  { id := 1, id_kategori := 5, team_1 := 1, team_2 := 2, waktu := 0, grup := none,
    status := .sedang_main, skor_1 := 0, skor_2 := 0, created_by := 0, updated_by := none }

/-- Equality of `Except` results is decidable (needed to evaluate the service
functions on concrete stores). -/
instance {e a : Type} [DecidableEq e] [DecidableEq a] : DecidableEq (Except e a) := fun x y =>
  match x, y with
  | .error u, .error v =>
    if h : u = v then .isTrue (by rw [h]) else .isFalse (by intro hc; cases hc; exact h rfl)
  | .ok u, .ok v =>
    if h : u = v then .isTrue (by rw [h]) else .isFalse (by intro hc; cases hc; exact h rfl)
  | .error _, .ok _ => .isFalse (by intro hc; cases hc)
  | .ok _, .error _ => .isFalse (by intro hc; cases hc)

/-- C2 as stated is false: for a GOAL whose event team is team 1 scored by a
player registered only under team 2, the specification demands
`PlayerNotEligible`, but `addMatchEvent` only checks registration under either
match team and succeeds. -/
theorem c2_claim_counterexample : ¬ C2Statement := by
  intro h
  obtain ⟨-, h2, -⟩ := h dbC2 1 eC2 9
  have hne : ¬ specEligible dbC2 mC2 eC2 := by simp only [specEligible]; decide
  have := (h2 mC2 (by decide) (by decide)).mpr hne
  exact absurd this (by decide)

/-- C2 amended: on a FINISHED (or any non-live) match `addMatchEvent` fails
with `MatchNotInProgress` and the transaction leaves the store unchanged;
`MatchNotInProgress` is raised iff the match exists and is not live; on a live
match `PlayerNotEligible` is raised iff the player has no registration in the
match's category under either of the match's two teams (`codeEligible`); and
every failure rolls back to the original store. -/
theorem c2_add_event_guards (db : DB) (mid : Nat) (e : EventData) (uid : Nat) :
    (∀ m, getMatchById db mid = some m → m.status = MatchStatus.selesai →
      addMatchEventTx db mid e uid = (db, .error .matchNotInProgress)) ∧
    ((addMatchEvent db mid e uid = .error .matchNotInProgress) ↔
      (∃ m, getMatchById db mid = some m ∧ m.status ≠ MatchStatus.sedang_main)) ∧
    (∀ m, getMatchById db mid = some m → m.status = MatchStatus.sedang_main →
      ((addMatchEvent db mid e uid = .error .playerNotEligible) ↔ ¬ codeEligible db m e)) ∧
    (∀ err, addMatchEvent db mid e uid = .error err →
      addMatchEventTx db mid e uid = (db, .error err)) := by
  have hElig : ∀ m : MatchRow,
      (findEligiblePlayer db e.id_pemain m.id_kategori m.team_1 m.team_2 = none)
        ↔ ¬ codeEligible db m e := by
    intro m
    rw [findEligiblePlayer, List.find?_eq_none, codeEligible]
    constructor
    · rintro hall ⟨pe, hmem, h1, h2, h3⟩
      have := hall pe hmem
      simp only [Bool.and_eq_true, Bool.or_eq_true, beq_iff_eq] at this
      exact this ⟨⟨h1, h2⟩, by tauto⟩
    · intro hne pe hmem hp
      simp only [Bool.and_eq_true, Bool.or_eq_true, beq_iff_eq] at hp
      exact hne ⟨pe, hmem, hp.1.1, hp.1.2, hp.2⟩
  have hnotlive : ∀ m, getMatchById db mid = some m → m.status ≠ MatchStatus.sedang_main →
      addMatchEvent db mid e uid = .error .matchNotInProgress := by
    intro m hm hst
    simp only [addMatchEvent, hm]
    rw [if_pos hst]
  refine ⟨?_, ?_, ?_, ?_⟩
  · intro m hm hfin
    rw [addMatchEventTx, hnotlive m hm (by rw [hfin]; intro hc; cases hc)]
  · constructor
    · intro herr
      cases hm : getMatchById db mid with
      | none =>
        simp only [addMatchEvent, hm] at herr
        exact absurd herr (by decide)
      | some m =>
        by_cases hst : m.status = MatchStatus.sedang_main
        · exfalso
          simp only [addMatchEvent, hm] at herr
          rw [if_neg (by rw [hst]; intro hc; exact hc rfl)] at herr
          cases hp : findEligiblePlayer db e.id_pemain m.id_kategori m.team_1 m.team_2 with
          | none => rw [hp] at herr; simp at herr
          | some pe => rw [hp] at herr; simp at herr
        · exact ⟨m, rfl, hst⟩
    · rintro ⟨m, hm, hst⟩
      exact hnotlive m hm hst
  · intro m hm hlive
    have hns : ¬ (m.status ≠ MatchStatus.sedang_main) := by rw [hlive]; intro hc; exact hc rfl
    cases hp : findEligiblePlayer db e.id_pemain m.id_kategori m.team_1 m.team_2 with
    | none =>
      simp only [addMatchEvent, hm, hp]
      rw [if_neg hns]
      simp only [eq_self_iff_true, true_iff]
      exact (hElig m).mp hp
    | some pe =>
      simp only [addMatchEvent, hm, hp]
      rw [if_neg hns]
      constructor
      · intro hc; cases hc
      · intro hne
        exfalso
        apply hne
        have hpe := List.find?_some hp
        have hmem := List.mem_of_find?_eq_some hp
        simp only [Bool.and_eq_true, Bool.or_eq_true, beq_iff_eq] at hpe
        exact ⟨pe, hmem, hpe.1.1, hpe.1.2, by tauto⟩
  · intro err herr
    simp only [addMatchEventTx, herr]

/-- Witness for `c2_add_event_guards`: concrete finished match, concrete
rejected event, concrete rollback. -/
def dbC2w : DB :=
  { «matches» := [{ id := 1, id_kategori := 5, team_1 := 1, team_2 := 2, waktu := 0,
                    grup := none, status := .selesai, skor_1 := 3, skor_2 := 1,
                    created_by := 0, updated_by := none }],
    match_events := [], pemain_event := [], match_lineup := [], match_staff_lineup := [],
    event_categories := [], brackets := [], nextMatchId := 2 }

def mC2w : MatchRow :=
  { id := 1, id_kategori := 5, team_1 := 1, team_2 := 2, waktu := 0, grup := none,
    status := .selesai, skor_1 := 3, skor_2 := 1, created_by := 0, updated_by := none }

theorem c2_add_event_guards_witness :
    addMatchEventTx dbC2w 1 eC2 9 = (dbC2w, .error .matchNotInProgress) :=
  (c2_add_event_guards dbC2w 1 eC2 9).1 mC2w (by decide) (by decide)

/-! ## C1 — the derived-score invariant of the event ledger -/

/-- How one successful `addMatchEvent` rewrites the match row: `GOL` bumps
`skor_1` when the event's team equals `team_1` and `skor_2` otherwise;
`BUNUH_DIRI` does the same for the computed `opponentTeam`; cards leave the
row unchanged. -/
def bump (m : MatchRow) (e : EventData) : MatchRow :=
  match e.jenis with
  | .GOL =>
    if e.id_team = m.team_1 then { m with skor_1 := m.skor_1 + 1 }
    else { m with skor_2 := m.skor_2 + 1 }
  | .BUNUH_DIRI =>
    if (if e.id_team = m.team_1 then m.team_2 else m.team_1) = m.team_1 then
      { m with skor_1 := m.skor_1 + 1 }
    else { m with skor_2 := m.skor_2 + 1 }
  | .KUNING => m
  | .MERAH => m

theorem bump_id (m : MatchRow) (e : EventData) : (bump m e).id = m.id := by
  rw [bump]; cases e.jenis <;> dsimp only <;> split_ifs <;> rfl

theorem bump_team_1 (m : MatchRow) (e : EventData) : (bump m e).team_1 = m.team_1 := by
  rw [bump]; cases e.jenis <;> dsimp only <;> split_ifs <;> rfl

theorem bump_team_2 (m : MatchRow) (e : EventData) : (bump m e).team_2 = m.team_2 := by
  rw [bump]; cases e.jenis <;> dsimp only <;> split_ifs <;> rfl

/-- `find?` by id commutes with an id-preserving row rewrite. -/
theorem find?_id_map (l : List MatchRow) (i : Nat) (f : MatchRow → MatchRow)
    (hf : ∀ r, (f r).id = r.id) (m : MatchRow)
    (h : l.find? (fun r => r.id == i) = some m) :
    (l.map f).find? (fun r => r.id == i) = some (f m) := by
  induction l with
  | nil => cases h
  | cons a t ih =>
    rw [List.map_cons]
    cases ha : (a.id == i) with
    | true =>
      simp only [List.find?, ha] at h
      cases h
      have hfa : ((f m).id == i) = true := by rw [hf]; exact ha
      simp only [List.find?, hfa]
    | false =>
      simp only [List.find?, ha] at h
      have hfa : ((f a).id == i) = false := by rw [hf]; exact ha
      simp only [List.find?, hfa]
      exact ih h

/-- A successful `addMatchEvent` rewrites the target match row to
`bump m e` (and the row is still found under the same id). -/
theorem addMatchEvent_ok_find (db db' : DB) (mid uid : Nat) (e : EventData)
    (ev : MatchEventRow) (m : MatchRow)
    (hm : getMatchById db mid = some m)
    (hok : addMatchEvent db mid e uid = .ok (db', ev)) :
    getMatchById db' mid = some (bump m e) := by
  have hmid : (m.id == mid) = true := by
    have := List.find?_some (by rw [getMatchById] at hm; exact hm)
    exact this
  have hmid' : m.id = mid := by simpa using hmid
  simp only [addMatchEvent, hm] at hok
  by_cases hst : m.status ≠ MatchStatus.sedang_main
  · rw [if_pos hst] at hok; cases hok
  · rw [if_neg hst] at hok
    cases hp : findEligiblePlayer db e.id_pemain m.id_kategori m.team_1 m.team_2 with
    | none => rw [hp] at hok; cases hok
    | some pe =>
      rw [hp] at hok
      injection hok with h
      cases h
      cases hj : e.jenis with
      | GOL =>
        simp only [hj, updatePlayerStats, updateScoreFromEvent, getMatchById,
          reduceCtorEq, if_true, if_false, reduceIte, true_or, ite_true]
        rw [find?_id_map db.«matches» mid _ ?_ m (by rw [getMatchById] at hm; exact hm)]
        · congr 1
          rw [if_pos hmid', bump, hj]
        · intro r
          dsimp only
          split_ifs <;> rfl
      | BUNUH_DIRI =>
        simp only [hj, updatePlayerStats, updateScoreFromEvent, getMatchById,
          reduceCtorEq, if_true, if_false, reduceIte, or_true, ite_true]
        rw [find?_id_map db.«matches» mid _ ?_ m (by rw [getMatchById] at hm; exact hm)]
        · congr 1
          rw [if_pos hmid', bump, hj]
        · intro r
          dsimp only
          split_ifs <;> rfl
      | KUNING =>
        simp only [hj, reduceCtorEq, if_false, reduceIte, or_self, ite_false]
        rw [getMatchById]
        dsimp only
        rw [getMatchById] at hm
        rw [hm, bump, hj]
      | MERAH =>
        simp only [hj, reduceCtorEq, if_false, reduceIte, or_self, ite_false]
        rw [getMatchById]
        dsimp only
        rw [getMatchById] at hm
        rw [hm, bump, hj]

/-- The team the code credits for kind `GOL` is the event's team; for
`BUNUH_DIRI` it is `opponentTeam` (the claim's "scoring team"). -/
def scoringTeam (m : MatchRow) (e : EventData) : Nat :=
  match e.jenis with
  | .GOL => e.id_team
  | .BUNUH_DIRI => if e.id_team = m.team_1 then m.team_2 else m.team_1
  | .KUNING => e.id_team
  | .MERAH => e.id_team

/-- Does this event make the code increment `skor_1`?  (`GOL` for team 1 or
own goal by team 2.) -/
def creditsTeam1 (m : MatchRow) (e : EventData) : Bool :=
  (e.jenis == Jenis.GOL && e.id_team == m.team_1) ||
  (e.jenis == Jenis.BUNUH_DIRI && e.id_team == m.team_2)

/-- Does this event make the code increment `skor_2`? -/
def creditsTeam2 (m : MatchRow) (e : EventData) : Bool :=
  (e.jenis == Jenis.GOL && e.id_team == m.team_2) ||
  (e.jenis == Jenis.BUNUH_DIRI && e.id_team == m.team_1)

theorem bump_skor (m : MatchRow) (e : EventData) (hne : m.team_1 ≠ m.team_2)
    (ht : e.id_team = m.team_1 ∨ e.id_team = m.team_2) :
    (bump m e).skor_1 = m.skor_1 + (if creditsTeam1 m e then 1 else 0) ∧
    (bump m e).skor_2 = m.skor_2 + (if creditsTeam2 m e then 1 else 0) := by
  cases hj : e.jenis <;> rcases ht with ht | ht <;>
    simp [bump, creditsTeam1, creditsTeam2, hj, ht, hne, Ne.symm hne]

/-- Under the same hypotheses, the claim's "scoring team is team i" agrees
with the code's crediting decision. -/
theorem scoringTeam_credits (m : MatchRow) (e : EventData) (hne : m.team_1 ≠ m.team_2)
    (hj : e.jenis = Jenis.GOL ∨ e.jenis = Jenis.BUNUH_DIRI)
    (ht : e.id_team = m.team_1 ∨ e.id_team = m.team_2) :
    (((scoringTeam m e == m.team_1) = true) ↔ (creditsTeam1 m e = true)) ∧
    (((scoringTeam m e == m.team_2) = true) ↔ (creditsTeam2 m e = true)) := by
  rcases hj with hj | hj <;> rcases ht with ht | ht <;>
    simp [scoringTeam, creditsTeam1, creditsTeam2, hj, ht, beq_iff_eq, hne, Ne.symm hne]

/-- Claim C1 as stated: across any successful sequence of GOAL / OWN_GOAL
events starting from 0-0, `skor_1` counts the events whose scoring team is
team 1 and `skor_2` those whose scoring team is team 2. -/
def C1Statement : Prop :=
  ∀ (db db' : DB) (mid uid : Nat) (m : MatchRow) (es : List EventData),
    getMatchById db mid = some m → m.skor_1 = 0 → m.skor_2 = 0 →
    (∀ e ∈ es, e.jenis = Jenis.GOL ∨ e.jenis = Jenis.BUNUH_DIRI) →
    runEvents db mid uid es = some db' →
    ∃ m', getMatchById db' mid = some m' ∧
      m'.skor_1 = es.countP (fun e => scoringTeam m e == m.team_1) ∧
      m'.skor_2 = es.countP (fun e => scoringTeam m e == m.team_2)

/-- Live match of teams 1 and 2; player 7 is registered under team 1, so an
event naming the unrelated team 99 still passes the eligibility check. -/
def dbC1 : DB :=
  { «matches» := [{ id := 1, id_kategori := 5, team_1 := 1, team_2 := 2, waktu := 0,
                    grup := none, status := .sedang_main, skor_1 := 0, skor_2 := 0,
                    created_by := 0, updated_by := none }],
    match_events := [], pemain_event := [{ id_pemain := 7, id_kategori := 5, id_team := 1, jumlah_gol := 0 }],
    match_lineup := [], match_staff_lineup := [], event_categories := [], brackets := [],
    nextMatchId := 2 }

def mC1 : MatchRow :=
  { id := 1, id_kategori := 5, team_1 := 1, team_2 := 2, waktu := 0, grup := none,
    status := .sedang_main, skor_1 := 0, skor_2 := 0, created_by := 0, updated_by := none }

/-- A GOAL attributed to team 99, which is neither side of the match. -/
def eC1 : EventData := { id_team := 99, id_pemain := 7, jenis := .GOL, menit := 3 }

def dbC1done : DB :=
  match runEvents dbC1 1 9 [eC1] with
  | some d => d
  | none => dbC1

def mC1done : MatchRow :=
  { id := 1, id_kategori := 5, team_1 := 1, team_2 := 2, waktu := 0, grup := none,
    status := .sedang_main, skor_1 := 0, skor_2 := 1, created_by := 0, updated_by := none }

/-- C1 as stated is false: a successful GOAL whose event team is the
unrelated team 99 has scoring team 99 — crediting neither side — yet the code
increments `skor_2` (99 differs from `team_1`, so the `else` branch of
`updateScoreFromEvent` fires). -/
theorem c1_claim_counterexample : ¬ C1Statement := by
  intro h
  obtain ⟨m', hfind, -, h2⟩ :=
    h dbC1 dbC1done 1 9 mC1 [eC1] (by decide) (by decide) (by decide) (by decide) (by decide)
  have hx : getMatchById dbC1done 1 = some mC1done := by decide
  rw [hx] at hfind
  cases hfind
  exact absurd h2 (by decide)

/-- The run-level invariant, generalised over the starting score. -/
theorem runEvents_score (es : List EventData) : ∀ (db db' : DB) (mid uid : Nat) (m : MatchRow),
    getMatchById db mid = some m → m.team_1 ≠ m.team_2 →
    (∀ e ∈ es, (e.jenis = Jenis.GOL ∨ e.jenis = Jenis.BUNUH_DIRI) ∧
      (e.id_team = m.team_1 ∨ e.id_team = m.team_2)) →
    runEvents db mid uid es = some db' →
    ∃ m', getMatchById db' mid = some m' ∧ m'.team_1 = m.team_1 ∧ m'.team_2 = m.team_2 ∧
      m'.skor_1 = m.skor_1 + es.countP (creditsTeam1 m) ∧
      m'.skor_2 = m.skor_2 + es.countP (creditsTeam2 m) := by
  induction es with
  | nil =>
    intro db db' mid uid m hm hne hwf hrun
    rw [runEvents] at hrun
    cases hrun
    exact ⟨m, hm, rfl, rfl, by simp, by simp⟩
  | cons e es ih =>
    intro db db' mid uid m hm hne hwf hrun
    rw [runEvents] at hrun
    cases hok : addMatchEvent db mid e uid with
    | error err => rw [hok] at hrun; cases hrun
    | ok p =>
      obtain ⟨db1, ev⟩ := p
      rw [hok] at hrun
      have hstep := addMatchEvent_ok_find db db1 mid uid e ev m hm hok
      have hwfe := hwf e (List.mem_cons_self e es)
      obtain ⟨m', hfind', ht1, ht2, hs1, hs2⟩ :=
        ih db1 db' mid uid (bump m e) hstep
          (by rw [bump_team_1, bump_team_2]; exact hne)
          (fun e' he' => by
            rw [bump_team_1, bump_team_2]
            exact hwf e' (List.mem_cons_of_mem e he'))
          hrun
      have hcred1 : es.countP (creditsTeam1 (bump m e)) = es.countP (creditsTeam1 m) := by
        apply List.countP_congr
        intro a _
        simp [creditsTeam1, bump_team_1, bump_team_2]
      have hcred2 : es.countP (creditsTeam2 (bump m e)) = es.countP (creditsTeam2 m) := by
        apply List.countP_congr
        intro a _
        simp [creditsTeam2, bump_team_1, bump_team_2]
      obtain ⟨hb1, hb2⟩ := bump_skor m e hne hwfe.2
      refine ⟨m', hfind', by rw [ht1, bump_team_1], by rw [ht2, bump_team_2], ?_, ?_⟩
      · rw [hs1, hcred1, hb1, List.countP_cons]
        omega
      · rw [hs2, hcred2, hb2, List.countP_cons]
        omega

/-- C1 amended: the stated invariant holds for every successful GOAL /
OWN_GOAL sequence in which each event's team is one of the match's two
(distinct) teams; after the run, `skor_1` / `skor_2` are exactly the number
of events whose scoring team is team 1 / team 2. -/
theorem c1_score_invariant (db db' : DB) (mid uid : Nat) (m : MatchRow) (es : List EventData)
    (hm : getMatchById db mid = some m) (h01 : m.skor_1 = 0) (h02 : m.skor_2 = 0)
    (hne : m.team_1 ≠ m.team_2)
    (hwf : ∀ e ∈ es, (e.jenis = Jenis.GOL ∨ e.jenis = Jenis.BUNUH_DIRI) ∧
      (e.id_team = m.team_1 ∨ e.id_team = m.team_2))
    (hrun : runEvents db mid uid es = some db') :
    ∃ m', getMatchById db' mid = some m' ∧
      m'.skor_1 = es.countP (fun e => scoringTeam m e == m.team_1) ∧
      m'.skor_2 = es.countP (fun e => scoringTeam m e == m.team_2) := by
  obtain ⟨m', hfind, -, -, hs1, hs2⟩ := runEvents_score es db db' mid uid m hm hne hwf hrun
  refine ⟨m', hfind, ?_, ?_⟩
  · rw [hs1, h01]
    have : es.countP (fun e => scoringTeam m e == m.team_1) = es.countP (creditsTeam1 m) := by
      apply List.countP_congr
      intro a ha
      exact (scoringTeam_credits m a hne (hwf a ha).1 (hwf a ha).2).1
    omega
  · rw [hs2, h02]
    have : es.countP (fun e => scoringTeam m e == m.team_2) = es.countP (creditsTeam2 m) := by
      apply List.countP_congr
      intro a ha
      exact (scoringTeam_credits m a hne (hwf a ha).1 (hwf a ha).2).2
    omega

def dbC1w : DB :=
  { «matches» := [{ id := 1, id_kategori := 5, team_1 := 1, team_2 := 2, waktu := 0,
                    grup := none, status := .sedang_main, skor_1 := 0, skor_2 := 0,
                    created_by := 0, updated_by := none }],
    match_events := [],
    pemain_event := [{ id_pemain := 7, id_kategori := 5, id_team := 1, jumlah_gol := 0 },
                     { id_pemain := 8, id_kategori := 5, id_team := 2, jumlah_gol := 0 }],
    match_lineup := [], match_staff_lineup := [], event_categories := [], brackets := [],
    nextMatchId := 2 }

def mC1w : MatchRow :=
  { id := 1, id_kategori := 5, team_1 := 1, team_2 := 2, waktu := 0, grup := none,
    status := .sedang_main, skor_1 := 0, skor_2 := 0, created_by := 0, updated_by := none }

/-- A goal by team 1 followed by an own goal by team 2 (credited to team 1). -/
def esC1w : List EventData :=
  [{ id_team := 1, id_pemain := 7, jenis := .GOL, menit := 3 },
   { id_team := 2, id_pemain := 8, jenis := .BUNUH_DIRI, menit := 7 }]

def dbC1wdone : DB :=
  match runEvents dbC1w 1 9 esC1w with
  | some d => d
  | none => dbC1w

/-- Witness for `c1_score_invariant` at a concrete two-event run. -/
theorem c1_score_invariant_witness :
    ∃ m', getMatchById dbC1wdone 1 = some m' ∧
      m'.skor_1 = esC1w.countP (fun e => scoringTeam mC1w e == mC1w.team_1) ∧
      m'.skor_2 = esC1w.countP (fun e => scoringTeam mC1w e == mC1w.team_2) :=
  c1_score_invariant dbC1w dbC1wdone 1 9 mC1w esC1w (by decide) (by decide) (by decide)
    (by decide) (by decide) (by decide)

/-! ## C4 — per-kind effects of one event -/

/-- Score field selected by team id ("the score field of team `t`"). -/
def teamScore (m : MatchRow) (t : Nat) : Nat :=
  if t = m.team_1 then m.skor_1 else if t = m.team_2 then m.skor_2 else 0

/-- The `opponentTeam` computation of `addMatchEvent`. -/
def opponent (m : MatchRow) (t : Nat) : Nat :=
  if t = m.team_1 then m.team_2 else m.team_1

/-- Registration rows of a player in a category. -/
def regKey (pid kat : Nat) (pe : PemainEventRow) : Bool :=
  pe.id_pemain == pid && pe.id_kategori == kat

/-- The career-goal counter of a player for a category: the total `jumlah_gol`
over the player's registration rows in that category. -/
def careerGoals (db : DB) (pid kat : Nat) : Nat :=
  ((db.pemain_event.filter (regKey pid kat)).map PemainEventRow.jumlah_gol).sum

/-- The row rewrite performed by `updatePlayerStats` for a `GOL`. -/
def statBump (pid kat : Nat) (pe : PemainEventRow) : PemainEventRow :=
  if pe.id_pemain = pid ∧ pe.id_kategori = kat then { pe with jumlah_gol := pe.jumlah_gol + 1 }
  else pe

theorem updatePlayerStats_gol (db : DB) (pid kat : Nat) :
    updatePlayerStats db pid kat Jenis.GOL =
      { db with pemain_event := db.pemain_event.map (statBump pid kat) } := by
  rw [updatePlayerStats, if_pos rfl]
  congr 1

theorem statBump_key (pid0 kat0 pid kat : Nat) (pe : PemainEventRow) :
    regKey pid kat (statBump pid0 kat0 pe) = regKey pid kat pe := by
  rw [statBump]
  split <;> rfl

theorem sum_map_gol_add_one (l : List PemainEventRow) :
    (l.map (fun pe => pe.jumlah_gol + 1)).sum = (l.map PemainEventRow.jumlah_gol).sum + l.length := by
  induction l with
  | nil => rfl
  | cons a t ih =>
    simp only [List.map_cons, List.sum_cons, ih, List.length_cons]
    omega

/-- Bumping the stats of `(pid0, kat0)` raises that career counter by the
number of registration rows and leaves every other counter unchanged. -/
theorem careerGoals_map_statBump (l : List PemainEventRow) (pid0 kat0 pid kat : Nat) :
    (((l.map (statBump pid0 kat0)).filter (regKey pid kat)).map PemainEventRow.jumlah_gol).sum =
      ((l.filter (regKey pid kat)).map PemainEventRow.jumlah_gol).sum +
        (if pid = pid0 ∧ kat = kat0 then (l.filter (regKey pid kat)).length else 0) := by
  rw [List.filter_map]
  have hfc : List.filter (regKey pid kat ∘ statBump pid0 kat0) l = List.filter (regKey pid kat) l :=
    List.filter_congr (fun pe _ => by rw [Function.comp_apply, statBump_key])
  rw [hfc, List.map_map]
  by_cases hsame : pid = pid0 ∧ kat = kat0
  · rw [if_pos hsame]
    have hmc : (l.filter (regKey pid kat)).map (PemainEventRow.jumlah_gol ∘ statBump pid0 kat0) =
        (l.filter (regKey pid kat)).map (fun pe => pe.jumlah_gol + 1) := by
      apply List.map_congr_left
      intro pe hpe
      have hkey := List.of_mem_filter hpe
      rw [regKey, Bool.and_eq_true, beq_iff_eq, beq_iff_eq] at hkey
      rw [Function.comp_apply, statBump, if_pos]
      exact ⟨by rw [hkey.1, hsame.1], by rw [hkey.2, hsame.2]⟩
    rw [hmc, sum_map_gol_add_one]
  · rw [if_neg hsame, Nat.add_zero]
    have hmc : (l.filter (regKey pid kat)).map (PemainEventRow.jumlah_gol ∘ statBump pid0 kat0) =
        (l.filter (regKey pid kat)).map PemainEventRow.jumlah_gol := by
      apply List.map_congr_left
      intro pe hpe
      have hkey := List.of_mem_filter hpe
      rw [regKey, Bool.and_eq_true, beq_iff_eq, beq_iff_eq] at hkey
      rw [Function.comp_apply, statBump, if_neg]
      intro hc
      exact hsame ⟨by rw [← hkey.1, hc.1], by rw [← hkey.2, hc.2]⟩
    rw [hmc]

/-- What one successful `addMatchEvent` does to the `pemain_event` table. -/
theorem addMatchEvent_ok_pemain (db db' : DB) (mid uid : Nat) (e : EventData)
    (ev : MatchEventRow) (m : MatchRow)
    (hm : getMatchById db mid = some m)
    (hok : addMatchEvent db mid e uid = .ok (db', ev)) :
    db'.pemain_event =
      if e.jenis = Jenis.GOL then db.pemain_event.map (statBump e.id_pemain m.id_kategori)
      else db.pemain_event := by
  simp only [addMatchEvent, hm] at hok
  by_cases hst : m.status ≠ MatchStatus.sedang_main
  · rw [if_pos hst] at hok; cases hok
  · rw [if_neg hst] at hok
    cases hp : findEligiblePlayer db e.id_pemain m.id_kategori m.team_1 m.team_2 with
    | none => rw [hp] at hok; cases hok
    | some pe =>
      rw [hp] at hok
      injection hok with h
      cases h
      cases hj : e.jenis with
      | GOL =>
        simp [hj, updatePlayerStats, updateScoreFromEvent, statBump]
      | BUNUH_DIRI =>
        simp [hj, updatePlayerStats, updateScoreFromEvent, statBump]
      | KUNING => simp [hj]
      | MERAH => simp [hj]

theorem bump_teamScore (m : MatchRow) (e : EventData) (hne : m.team_1 ≠ m.team_2)
    (ht : e.id_team = m.team_1 ∨ e.id_team = m.team_2) :
    (e.jenis = Jenis.GOL →
      teamScore (bump m e) e.id_team = teamScore m e.id_team + 1 ∧
      teamScore (bump m e) (opponent m e.id_team) = teamScore m (opponent m e.id_team)) ∧
    (e.jenis = Jenis.BUNUH_DIRI →
      teamScore (bump m e) (opponent m e.id_team) = teamScore m (opponent m e.id_team) + 1 ∧
      teamScore (bump m e) e.id_team = teamScore m e.id_team) ∧
    ((e.jenis = Jenis.KUNING ∨ e.jenis = Jenis.MERAH) →
      (bump m e).skor_1 = m.skor_1 ∧ (bump m e).skor_2 = m.skor_2) := by
  refine ⟨fun hj => ?_, fun hj => ?_, fun hj => ?_⟩
  · rcases ht with ht | ht <;>
      simp [teamScore, opponent, bump, hj, ht, hne, Ne.symm hne]
  · rcases ht with ht | ht <;>
      simp [teamScore, opponent, bump, hj, ht, hne, Ne.symm hne]
  · rcases hj with hj | hj <;> simp [bump, hj]

/-- C4: on a live match with distinct teams and a well-teamed event, a GOAL
increments the event team's score field and the scorer's career-goal counter
for the category (given a unique registration row) and nothing else; an
OWN_GOAL increments the opponent's score field and no career counter; cards
change neither score. -/
theorem c4_event_effects (db db' : DB) (mid uid : Nat) (m : MatchRow) (e : EventData)
    (ev : MatchEventRow)
    (hm : getMatchById db mid = some m) (hne : m.team_1 ≠ m.team_2)
    (ht : e.id_team = m.team_1 ∨ e.id_team = m.team_2)
    (hok : addMatchEvent db mid e uid = .ok (db', ev)) :
    ∃ m', getMatchById db' mid = some m' ∧ m'.team_1 = m.team_1 ∧ m'.team_2 = m.team_2 ∧
      (e.jenis = Jenis.GOL →
        teamScore m' e.id_team = teamScore m e.id_team + 1 ∧
        teamScore m' (opponent m e.id_team) = teamScore m (opponent m e.id_team) ∧
        ((db.pemain_event.filter (regKey e.id_pemain m.id_kategori)).length = 1 →
          careerGoals db' e.id_pemain m.id_kategori = careerGoals db e.id_pemain m.id_kategori + 1) ∧
        (∀ pid kat, ¬(pid = e.id_pemain ∧ kat = m.id_kategori) →
          careerGoals db' pid kat = careerGoals db pid kat)) ∧
      (e.jenis = Jenis.BUNUH_DIRI →
        teamScore m' (opponent m e.id_team) = teamScore m (opponent m e.id_team) + 1 ∧
        teamScore m' e.id_team = teamScore m e.id_team ∧
        db'.pemain_event = db.pemain_event) ∧
      ((e.jenis = Jenis.KUNING ∨ e.jenis = Jenis.MERAH) →
        m'.skor_1 = m.skor_1 ∧ m'.skor_2 = m.skor_2 ∧
        db'.pemain_event = db.pemain_event) := by
  have hfind := addMatchEvent_ok_find db db' mid uid e ev m hm hok
  have hpem := addMatchEvent_ok_pemain db db' mid uid e ev m hm hok
  have hbts := bump_teamScore m e hne ht
  refine ⟨bump m e, hfind, bump_team_1 m e, bump_team_2 m e, ?_, ?_, ?_⟩
  · intro hj
    refine ⟨(hbts.1 hj).1, (hbts.1 hj).2, ?_, ?_⟩
    · intro hlen
      simp only [careerGoals, hpem, if_pos hj]
      rw [careerGoals_map_statBump, if_pos ⟨rfl, rfl⟩, hlen]
    · intro pid kat hdiff
      simp only [careerGoals, hpem, if_pos hj]
      rw [careerGoals_map_statBump, if_neg hdiff, Nat.add_zero]
  · intro hj
    have hnotgol : ¬ e.jenis = Jenis.GOL := by rw [hj]; intro hc; cases hc
    exact ⟨(hbts.2.1 hj).1, (hbts.2.1 hj).2, by rw [hpem, if_neg hnotgol]⟩
  · intro hj
    have hnotgol : ¬ e.jenis = Jenis.GOL := by
      rcases hj with hj | hj <;> rw [hj] <;> intro hc <;> cases hc
    obtain ⟨h1, h2⟩ := hbts.2.2 hj
    exact ⟨h1, h2, by rw [hpem, if_neg hnotgol]⟩

def dbC4w : DB :=
  { «matches» := [{ id := 1, id_kategori := 5, team_1 := 1, team_2 := 2, waktu := 0,
                    grup := none, status := .sedang_main, skor_1 := 1, skor_2 := 0,
                    created_by := 0, updated_by := none }],
    match_events := [],
    pemain_event := [{ id_pemain := 7, id_kategori := 5, id_team := 1, jumlah_gol := 4 }],
    match_lineup := [], match_staff_lineup := [], event_categories := [], brackets := [],
    nextMatchId := 2 }

def mC4w : MatchRow :=
  { id := 1, id_kategori := 5, team_1 := 1, team_2 := 2, waktu := 0, grup := none,
    status := .sedang_main, skor_1 := 1, skor_2 := 0, created_by := 0, updated_by := none }

def eC4w : EventData := { id_team := 1, id_pemain := 7, jenis := .GOL, menit := 15 }

def dbC4done : DB :=
  match addMatchEvent dbC4w 1 eC4w 9 with
  | .ok (d, _) => d
  | .error _ => dbC4w

def evC4done : MatchEventRow :=
  match addMatchEvent dbC4w 1 eC4w 9 with
  | .ok (_, v) => v
  | .error _ =>
    { id_match := 0, id_kategori := 0, id_team := 0, id_pemain := 0, jenis := .GOL,
      menit := 0, created_by := 0 }

/-- Witness for `c4_event_effects` at a concrete GOAL. -/
theorem c4_event_effects_witness :
    ∃ m', getMatchById dbC4done 1 = some m' ∧ m'.team_1 = mC4w.team_1 ∧ m'.team_2 = mC4w.team_2 ∧
      (eC4w.jenis = Jenis.GOL →
        teamScore m' eC4w.id_team = teamScore mC4w eC4w.id_team + 1 ∧
        teamScore m' (opponent mC4w eC4w.id_team) = teamScore mC4w (opponent mC4w eC4w.id_team) ∧
        ((dbC4w.pemain_event.filter (regKey eC4w.id_pemain mC4w.id_kategori)).length = 1 →
          careerGoals dbC4done eC4w.id_pemain mC4w.id_kategori =
            careerGoals dbC4w eC4w.id_pemain mC4w.id_kategori + 1) ∧
        (∀ pid kat, ¬(pid = eC4w.id_pemain ∧ kat = mC4w.id_kategori) →
          careerGoals dbC4done pid kat = careerGoals dbC4w pid kat)) ∧
      (eC4w.jenis = Jenis.BUNUH_DIRI →
        teamScore m' (opponent mC4w eC4w.id_team) = teamScore mC4w (opponent mC4w eC4w.id_team) + 1 ∧
        teamScore m' eC4w.id_team = teamScore mC4w eC4w.id_team ∧
        dbC4done.pemain_event = dbC4w.pemain_event) ∧
      ((eC4w.jenis = Jenis.KUNING ∨ eC4w.jenis = Jenis.MERAH) →
        m'.skor_1 = mC4w.skor_1 ∧ m'.skor_2 = mC4w.skor_2 ∧
        dbC4done.pemain_event = dbC4w.pemain_event) :=
  c4_event_effects dbC4w dbC4done 1 9 mC4w eC4w evC4done (by decide) (by decide)
    (by decide) (by decide)

/-! ## C3 / C10 — mutations of existing matches -/

/-- The body of an `updateMatch` request; `none` marks an absent field.  Only
the `allowedFields` of the source (`waktu`, `status`, `grup`, `skor_1`,
`skor_2`) exist. -/
structure UpdateData where
  waktu : Option Nat := none
  status : Option MatchStatus := none
  grup : Option (Option String) := none
  skor_1 : Option Nat := none
  skor_2 : Option Nat := none
deriving Repr, DecidableEq

/-- `updateFields.length > 0` in the source: at least one allowed field is
present. -/
def hasValidField (u : UpdateData) : Bool :=
  u.waktu.isSome || u.status.isSome || u.grup.isSome || u.skor_1.isSome || u.skor_2.isSome

/-- The dynamic `UPDATE matches SET ...` of `updateMatch`: each present field
overwrites the row, plus `updated_by`. -/
def applyUpdate (u : UpdateData) (uid : Nat) (m : MatchRow) : MatchRow :=
  { m with
    waktu := u.waktu.getD m.waktu,
    status := u.status.getD m.status,
    grup := u.grup.getD m.grup,
    skor_1 := u.skor_1.getD m.skor_1,
    skor_2 := u.skor_2.getD m.skor_2,
    updated_by := some uid }

/-- `MatchService.updateMatch`.  Note the guard of the source:
`if (currentMatch.status === 'selesai' && updateData.status !== 'selesai')` —
an update that sets `status` to `selesai` is allowed through even on a
finished match.  Returns `none` when the match does not exist (the service
returns `null`). -/
def updateMatch (db : DB) (id : Nat) (u : UpdateData) (uid : Nat) :
    Except AppErr (Option (DB × MatchRow)) :=
  match getMatchById db id with
  | none => .ok none
  | some m =>
    if m.status = MatchStatus.selesai ∧ u.status ≠ some MatchStatus.selesai then
      .error .cannotModifyFinished
    else if hasValidField u = false then .error .noValidFields
    else
      let db' := { db with «matches» := db.«matches».map (fun r =>
        if r.id = id then applyUpdate u uid r else r) }
      .ok ((getMatchById db' id).map (fun m' => (db', m')))

/-- `updateMatch` through `database.transaction` (rollback on error). -/
def updateMatchTx (db : DB) (id : Nat) (u : UpdateData) (uid : Nat) :
    DB × Except AppErr (Option MatchRow) :=
  match updateMatch db id u uid with
  | .error err => (db, .error err)
  | .ok none => (db, .ok none)
  | .ok (some (db', m')) => (db', .ok (some m'))

/-- `MatchService.updateScore`: the administrative absolute override.  The
source performs no status check whatsoever — it fetches the match and writes
`skor_1`/`skor_2` unconditionally. -/
def updateScore (db : DB) (id skor1 skor2 uid : Nat) : Option (DB × MatchRow) :=
  match getMatchById db id with
  | none => none
  | some _ =>
    let db' := { db with «matches» := db.«matches».map (fun r =>
      if r.id = id then { r with skor_1 := skor1, skor_2 := skor2, updated_by := some uid }
      else r) }
    (getMatchById db' id).map (fun m' => (db', m'))

/-- `MatchService.deleteMatch`: blocked only while `sedang_main`; otherwise
deletes the ledger, both lineups and the match row in one transaction and
returns `affectedRows > 0`. -/
def deleteMatch (db : DB) (id : Nat) : Except AppErr (DB × Bool) :=
  match getMatchById db id with
  | none => .ok (db, false)
  | some m =>
    if m.status = MatchStatus.sedang_main then .error .cannotDeleteInProgress
    else
      let affected := (db.«matches».filter (fun r => r.id == id)).length
      let db' := { db with
        «matches» := db.«matches».filter (fun r => !(r.id == id)),
        match_events := db.match_events.filter (fun ev => !(ev.id_match == id)),
        match_lineup := db.match_lineup.filter (fun r => !(r.id_match == id)),
        match_staff_lineup := db.match_staff_lineup.filter (fun r => !(r.id_match == id)) }
      .ok (db', decide (0 < affected))

/-- `deleteMatch` through `database.transaction`. -/
def deleteMatchTx (db : DB) (id : Nat) : DB × Except AppErr Bool :=
  match deleteMatch db id with
  | .error err => (db, .error err)
  | .ok (db', b) => (db', .ok b)

/-- Claim C3 as stated: on a FINISHED match every `updateMatch` fails with
the immutability error leaving the store unchanged, and `updateScore` never
succeeds. -/
def C3Statement : Prop :=
  ∀ (db : DB) (id : Nat) (m : MatchRow) (u : UpdateData) (uid s1 s2 : Nat),
    getMatchById db id = some m → m.status = MatchStatus.selesai →
    updateMatchTx db id u uid = (db, .error .cannotModifyFinished) ∧
    (∀ r, updateScore db id s1 s2 uid ≠ some r)

def dbC3 : DB :=
  { «matches» := [{ id := 1, id_kategori := 5, team_1 := 1, team_2 := 2, waktu := 0,
                    grup := none, status := .selesai, skor_1 := 3, skor_2 := 1,
                    created_by := 0, updated_by := none }],
    match_events := [], pemain_event := [], match_lineup := [], match_staff_lineup := [],
    event_categories := [], brackets := [], nextMatchId := 2 }

def mC3 : MatchRow :=
  { id := 1, id_kategori := 5, team_1 := 1, team_2 := 2, waktu := 0, grup := none,
    status := .selesai, skor_1 := 3, skor_2 := 1, created_by := 0, updated_by := none }

def scoreC3 : DB × MatchRow :=
  match updateScore dbC3 1 0 0 9 with
  | some p => p
  | none => (dbC3, mC3)

/-- C3 as stated is false: `updateScore` on a FINISHED match succeeds (the
source has no status guard), silently rewriting the final score. -/
theorem c3_claim_counterexample : ¬ C3Statement := by
  intro h
  obtain ⟨-, h2⟩ := h dbC3 1 mC3 {} 9 0 0 (by decide) (by decide)
  exact h2 scoreC3 (by decide)

/-- `updateScore` on an existing match always succeeds and returns the row
with both scores overwritten (no status guard exists in the source). -/
theorem updateScore_found (db : DB) (id s1 s2 uid : Nat) (m : MatchRow)
    (hm : getMatchById db id = some m) :
    ∃ db', updateScore db id s1 s2 uid =
      some (db', { m with skor_1 := s1, skor_2 := s2, updated_by := some uid }) := by
  have hmid : m.id = id := by
    have := List.find?_some (show List.find? (fun r => r.id == id) db.«matches» = some m by
      rw [getMatchById] at hm; exact hm)
    simpa using this
  have hf : ∀ r : MatchRow,
      (if r.id = id then ({ r with skor_1 := s1, skor_2 := s2, updated_by := some uid } : MatchRow)
       else r).id = r.id := by
    intro r; split_ifs <;> rfl
  have hfind := find?_id_map db.«matches» id _ hf m
    (show List.find? (fun r => r.id == id) db.«matches» = some m by
      rw [getMatchById] at hm; exact hm)
  refine ⟨{ db with «matches» := db.«matches».map (fun r =>
    if r.id = id then { r with skor_1 := s1, skor_2 := s2, updated_by := some uid }
    else r) }, ?_⟩
  have hm2 : List.find? (fun r => r.id == id) db.«matches» = some m := by
    rw [getMatchById] at hm; exact hm
  simp only [updateScore, getMatchById, hm2]
  rw [hfind, Option.map_some']
  rw [if_pos hmid]

/-- C3 amended: on a FINISHED match, `updateMatch` fails with the
immutability error and rolls back unless the update itself sets `status` to
FINISHED; `updateScore` succeeds in *every* state — including FINISHED — and
overwrites both score fields. -/
theorem c3_finished_mutations (db : DB) (id : Nat) (m : MatchRow) (u : UpdateData)
    (uid s1 s2 : Nat)
    (hm : getMatchById db id = some m) (hfin : m.status = MatchStatus.selesai) :
    (u.status ≠ some MatchStatus.selesai →
      updateMatchTx db id u uid = (db, .error .cannotModifyFinished)) ∧
    (∃ db' m', updateScore db id s1 s2 uid = some (db', m') ∧
      m'.skor_1 = s1 ∧ m'.skor_2 = s2 ∧ m'.status = MatchStatus.selesai ∧
      m'.id = m.id) := by
  constructor
  · intro hstat
    have hum : updateMatch db id u uid = .error .cannotModifyFinished := by
      simp only [updateMatch, hm]
      rw [if_pos ⟨hfin, hstat⟩]
    simp only [updateMatchTx, hum]
  · obtain ⟨db', hup⟩ := updateScore_found db id s1 s2 uid m hm
    exact ⟨db', _, hup, rfl, rfl, hfin, rfl⟩

def dbC3w : DB :=
  { «matches» := [{ id := 4, id_kategori := 2, team_1 := 10, team_2 := 11, waktu := 0,
                    grup := some "A", status := .selesai, skor_1 := 2, skor_2 := 2,
                    created_by := 0, updated_by := none }],
    match_events := [], pemain_event := [], match_lineup := [], match_staff_lineup := [],
    event_categories := [], brackets := [], nextMatchId := 5 }

def mC3w : MatchRow :=
  { id := 4, id_kategori := 2, team_1 := 10, team_2 := 11, waktu := 0, grup := some "A",
    status := .selesai, skor_1 := 2, skor_2 := 2, created_by := 0, updated_by := none }

def uC3w : UpdateData := { skor_1 := some 9 }

/-- Witness for `c3_finished_mutations` at a concrete finished match. -/
theorem c3_finished_mutations_witness :
    (uC3w.status ≠ some MatchStatus.selesai →
      updateMatchTx dbC3w 4 uC3w 9 = (dbC3w, .error .cannotModifyFinished)) ∧
    (∃ db' m', updateScore dbC3w 4 7 0 9 = some (db', m') ∧
      m'.skor_1 = 7 ∧ m'.skor_2 = 0 ∧ m'.status = MatchStatus.selesai ∧
      m'.id = mC3w.id) :=
  c3_finished_mutations dbC3w 4 mC3w uC3w 9 7 0 (by decide) (by decide)

/-- C10: `deleteMatch` is rejected (with rollback) only while the match is
LIVE; in every other state — including FINISHED — it succeeds, removing the
match row together with all of its ledger, lineup and staff-lineup rows in
the same transaction. -/
theorem c10_delete_match (db : DB) (id : Nat) (m : MatchRow)
    (hm : getMatchById db id = some m) :
    (m.status = MatchStatus.sedang_main →
      deleteMatchTx db id = (db, .error .cannotDeleteInProgress)) ∧
    (m.status ≠ MatchStatus.sedang_main →
      ∃ db', deleteMatch db id = .ok (db', true) ∧
        getMatchById db' id = none ∧
        (∀ ev ∈ db'.match_events, ev.id_match ≠ id) ∧
        (∀ r ∈ db'.match_lineup, r.id_match ≠ id) ∧
        (∀ r ∈ db'.match_staff_lineup, r.id_match ≠ id) ∧
        db'.«matches» = db.«matches».filter (fun r => !(r.id == id)) ∧
        db'.match_events = db.match_events.filter (fun ev => !(ev.id_match == id)) ∧
        db'.match_lineup = db.match_lineup.filter (fun r => !(r.id_match == id)) ∧
        db'.match_staff_lineup = db.match_staff_lineup.filter (fun r => !(r.id_match == id)) ∧
        db'.pemain_event = db.pemain_event) := by
  have hm2 : List.find? (fun r => r.id == id) db.«matches» = some m := by
    rw [getMatchById] at hm; exact hm
  constructor
  · intro hlive
    have hdm : deleteMatch db id = .error .cannotDeleteInProgress := by
      simp only [deleteMatch, hm]
      rw [if_pos hlive]
    simp only [deleteMatchTx, hdm]
  · intro hnl
    have haff : (decide (0 < (db.«matches».filter (fun r => r.id == id)).length)) = true := by
      have hpm := List.find?_some hm2
      have hmem : m ∈ db.«matches».filter (fun r => r.id == id) :=
        List.mem_filter.mpr ⟨List.mem_of_find?_eq_some hm2, hpm⟩
      simpa using List.length_pos_of_mem hmem
    refine ⟨{ db with
        «matches» := db.«matches».filter (fun r => !(r.id == id)),
        match_events := db.match_events.filter (fun ev => !(ev.id_match == id)),
        match_lineup := db.match_lineup.filter (fun r => !(r.id_match == id)),
        match_staff_lineup := db.match_staff_lineup.filter (fun r => !(r.id_match == id)) },
      ?_, ?_, ?_, ?_, ?_, rfl, rfl, rfl, rfl, rfl⟩
    · simp only [deleteMatch, hm]
      rw [if_neg hnl, haff]
    · rw [getMatchById]
      apply List.find?_eq_none.mpr
      intro r hr
      have := List.of_mem_filter hr
      simp only [Bool.not_eq_true'] at this
      simp [this]
    · intro ev hev
      have := List.of_mem_filter hev
      simp only [Bool.not_eq_true'] at this
      simpa using this
    · intro r hr
      have := List.of_mem_filter hr
      simp only [Bool.not_eq_true'] at this
      simpa using this
    · intro r hr
      have := List.of_mem_filter hr
      simp only [Bool.not_eq_true'] at this
      simpa using this

def dbC10w : DB :=
  { «matches» := [{ id := 1, id_kategori := 5, team_1 := 1, team_2 := 2, waktu := 0,
                    grup := none, status := .selesai, skor_1 := 2, skor_2 := 0,
                    created_by := 0, updated_by := none }],
    match_events := [{ id_match := 1, id_kategori := 5, id_team := 1, id_pemain := 7,
                       jenis := .GOL, menit := 3, created_by := 9 },
                     { id_match := 1, id_kategori := 5, id_team := 1, id_pemain := 7,
                       jenis := .GOL, menit := 8, created_by := 9 }],
    pemain_event := [], match_lineup := [{ id_match := 1, id_pemain_event := 3, is_starting := true }],
    match_staff_lineup := [{ id_match := 1, id_staff_event := 2 }],
    event_categories := [], brackets := [], nextMatchId := 2 }

def mC10w : MatchRow :=
  { id := 1, id_kategori := 5, team_1 := 1, team_2 := 2, waktu := 0, grup := none,
    status := .selesai, skor_1 := 2, skor_2 := 0, created_by := 0, updated_by := none }

/-- Witness for `c10_delete_match`: a FINISHED match with a two-goal ledger
is deleted wholesale. -/
theorem c10_delete_match_witness :
    (mC10w.status = MatchStatus.sedang_main →
      deleteMatchTx dbC10w 1 = (dbC10w, .error .cannotDeleteInProgress)) ∧
    (mC10w.status ≠ MatchStatus.sedang_main →
      ∃ db', deleteMatch dbC10w 1 = .ok (db', true) ∧
        getMatchById db' 1 = none ∧
        (∀ ev ∈ db'.match_events, ev.id_match ≠ 1) ∧
        (∀ r ∈ db'.match_lineup, r.id_match ≠ 1) ∧
        (∀ r ∈ db'.match_staff_lineup, r.id_match ≠ 1) ∧
        db'.«matches» = dbC10w.«matches».filter (fun r => !(r.id == 1)) ∧
        db'.match_events = dbC10w.match_events.filter (fun ev => !(ev.id_match == 1)) ∧
        db'.match_lineup = dbC10w.match_lineup.filter (fun r => !(r.id_match == 1)) ∧
        db'.match_staff_lineup = dbC10w.match_staff_lineup.filter (fun r => !(r.id_match == 1)) ∧
        db'.pemain_event = dbC10w.pemain_event) :=
  c10_delete_match dbC10w 1 mC10w (by decide)

/-! ## C5 — round-robin generation

Team names are modelled by their alphabetical rank (a `Nat`): the SQL
`ORDER BY t.nama_club` of the roster query is reflected as a sortedness
hypothesis on that rank (kernel evaluation of `String` order is not
available).  Times are minutes as `Nat`: `jam_awal` is the configured
kickoff, `jeda_menit` the interval added after each fixture. -/

/-- A roster entry as returned by the teams query of
`generateGroupMatches`. -/
structure GTeam where
  id_team : Nat
  nama_club : Nat
deriving Repr, DecidableEq

/-- The `i < j` double loop of `generateGroupMatches`, in its exact order. -/
def pairs {α : Type} : List α → List (α × α)
  | [] => []
  | x :: xs => (xs.map (fun y => (x, y))) ++ pairs xs

/-- One inserted fixture: SCHEDULED, 0-0, time `jam_awal + k·jeda`. -/
def mkFixture (kat : Nat) (grup : String) (uid nextId jamAwal jeda k : Nat)
    (p : GTeam × GTeam) : MatchRow :=
  { id := nextId + k, id_kategori := kat, team_1 := p.1.id_team, team_2 := p.2.id_team,
    waktu := jamAwal + k * jeda, grup := some grup, status := .belum_main,
    skor_1 := 0, skor_2 := 0, created_by := uid, updated_by := none }

/-- `MatchService.generateGroupMatches` (body of the transaction): `teams` is
the roster returned by the `ORDER BY t.nama_club` query for the
category+group. -/
def generateGroupMatches (db : DB) (teams : List GTeam) (kat : Nat) (grup : String)
    (jamAwal jeda uid : Nat) : Except AppErr (DB × List MatchRow) :=
  if teams.length < 2 then .error .insufficientTeams
  else
    let rows := (pairs teams).enum.map
      (fun kp => mkFixture kat grup uid db.nextMatchId jamAwal jeda kp.1 kp.2)
    let db2 : DB := { db with «matches» := db.«matches» ++ rows, nextMatchId := db.nextMatchId + rows.length }
    Except.ok (db2, rows)

theorem two_mul_pairs_length {α : Type} (l : List α) :
    2 * (pairs l).length = l.length * (l.length - 1) := by
  induction l with
  | nil => rfl
  | cons x xs ih =>
    simp only [pairs, List.length_append, List.length_map, List.length_cons]
    have hkey : (xs.length + 1) * (xs.length + 1 - 1) =
        xs.length * (xs.length - 1) + 2 * xs.length := by
      cases hl : xs.length with
      | zero => rfl
      | succ n =>
        simp only [Nat.add_sub_cancel, Nat.succ_sub_one]
        ring
    rw [hkey]
    linarith [ih]

theorem pairs_length {α : Type} (l : List α) :
    (pairs l).length = l.length * (l.length - 1) / 2 := by
  rw [← two_mul_pairs_length l, Nat.mul_div_cancel_left]
  omega

theorem mem_pairs {α : Type} {p : α × α} :
    ∀ {l : List α}, p ∈ pairs l → p.1 ∈ l ∧ p.2 ∈ l := by
  intro l
  induction l with
  | nil => intro h; cases h
  | cons x xs ih =>
    intro h
    rw [pairs] at h
    rcases List.mem_append.mp h with h | h
    · obtain ⟨y, hy, rfl⟩ := List.mem_map.mp h
      exact ⟨List.mem_cons_self _ _, List.mem_cons_of_mem _ hy⟩
    · obtain ⟨h1, h2⟩ := ih h
      exact ⟨List.mem_cons_of_mem _ h1, List.mem_cons_of_mem _ h2⟩

theorem count_map_pair {α : Type} [DecidableEq α] (x c d : α) (xs : List α) :
    (xs.map (fun y => (x, y))).count (c, d) = if c = x then xs.count d else 0 := by
  induction xs with
  | nil => simp
  | cons y ys ih =>
    simp only [List.map_cons, List.count_cons, ih]
    by_cases hc : c = x
    · subst hc
      by_cases hd : d = y
      · subst hd
        simp
      · simp [hd, Prod.ext_iff]
    · simp [hc, Prod.ext_iff]
      intro h
      exact absurd h.symm hc

theorem count_pairs_zero {α : Type} [DecidableEq α] {c d : α} {xs : List α}
    (h : c ∉ xs ∨ d ∉ xs) : (pairs xs).count (c, d) = 0 := by
  apply List.count_eq_zero.mpr
  intro hmem
  have := mem_pairs hmem
  rcases h with h | h
  · exact h this.1
  · exact h this.2

/-- Over a duplicate-free roster, each unordered pair of distinct elements
occurs exactly once in the `i < j` double loop. -/
theorem count_pairs_once {α : Type} [DecidableEq α] :
    ∀ {l : List α}, l.Nodup → ∀ {a b : α}, a ∈ l → b ∈ l → a ≠ b →
      (pairs l).count (a, b) + (pairs l).count (b, a) = 1 := by
  intro l
  induction l with
  | nil => intro _ a b ha; cases ha
  | cons x xs ih =>
    intro hnd a b ha hb hab
    obtain ⟨hx, hxs⟩ := List.nodup_cons.mp hnd
    rw [pairs, List.count_append, List.count_append, count_map_pair, count_map_pair]
    rcases List.mem_cons.mp ha with rfl | ha'
    · have hb' : b ∈ xs := by
        rcases List.mem_cons.mp hb with rfl | hb'
        · exact absurd rfl hab
        · exact hb'
      rw [if_pos rfl, if_neg (fun h => hab h.symm)]
      rw [List.count_eq_one_of_mem hxs hb']
      rw [count_pairs_zero (Or.inl hx), count_pairs_zero (Or.inr hx)]
    · rcases List.mem_cons.mp hb with rfl | hb'
      · rw [if_neg (fun h => hab h), if_pos rfl]
        rw [List.count_eq_one_of_mem hxs ha']
        rw [count_pairs_zero (Or.inr hx), count_pairs_zero (Or.inl hx)]
      · have hax : ¬ (a = x) := fun h => hx (h ▸ ha')
        have hbx : ¬ (b = x) := fun h => hx (h ▸ hb')
        rw [if_neg hax, if_neg hbx]
        have := ih hxs ha' hb' hab
        omega

theorem pairs_map {α β : Type} (g : α → β) :
    ∀ l : List α, pairs (l.map g) = (pairs l).map (fun p => (g p.1, g p.2)) := by
  intro l
  induction l with
  | nil => rfl
  | cons x xs ih =>
    simp only [List.map_cons, pairs, ih, List.map_append, List.map_map]
    rfl

theorem rows_getElem (db : DB) (teams : List GTeam) (kat : Nat) (grup : String)
    (jamAwal jeda uid k : Nat)
    (hk : k < ((pairs teams).enum.map
      (fun kp => mkFixture kat grup uid db.nextMatchId jamAwal jeda kp.1 kp.2)).length)
    (hk2 : k < (pairs teams).length) :
    ((pairs teams).enum.map
      (fun kp => mkFixture kat grup uid db.nextMatchId jamAwal jeda kp.1 kp.2))[k] =
      mkFixture kat grup uid db.nextMatchId jamAwal jeda k ((pairs teams)[k]) := by
  rw [List.getElem_map]
  congr 1 <;> rw [List.getElem_enum]

/-- C5: with fewer than two teams `generateGroupMatches` fails with
`InsufficientTeams`; otherwise it persists exactly `n·(n-1)/2` fixtures —
each unordered pair of distinct roster teams exactly once, in the `i < j`
double-loop order over the name-sorted roster — every fixture SCHEDULED with
score 0-0, and kickoff times start at `jam_awal` and increase by exactly the
configured interval per fixture (strictly, since the interval is positive). -/
theorem c5_generate_group (db : DB) (teams : List GTeam) (kat : Nat) (grup : String)
    (jamAwal jeda uid : Nat)
    (hsorted : teams.Pairwise (fun a b => a.nama_club ≤ b.nama_club))
    (hjeda : 0 < jeda)
    (hnodup : (teams.map GTeam.id_team).Nodup) :
    (teams.length < 2 →
      generateGroupMatches db teams kat grup jamAwal jeda uid = .error .insufficientTeams) ∧
    (2 ≤ teams.length →
      ∃ db' rows, generateGroupMatches db teams kat grup jamAwal jeda uid = .ok (db', rows) ∧
        rows.length = teams.length * (teams.length - 1) / 2 ∧
        db'.«matches» = db.«matches» ++ rows ∧
        (∀ r ∈ rows, r.status = MatchStatus.belum_main ∧ r.skor_1 = 0 ∧ r.skor_2 = 0 ∧
          r.grup = some grup ∧ r.id_kategori = kat) ∧
        rows.map (fun r => (r.team_1, r.team_2)) = pairs (teams.map GTeam.id_team) ∧
        (∀ a b, a ∈ teams.map GTeam.id_team → b ∈ teams.map GTeam.id_team → a ≠ b →
          (rows.map (fun r => (r.team_1, r.team_2))).count (a, b) +
            (rows.map (fun r => (r.team_1, r.team_2))).count (b, a) = 1) ∧
        (∀ k, ∀ hk : k < rows.length, rows[k].waktu = jamAwal + k * jeda) ∧
        (∀ k, ∀ hk1 : k < rows.length, ∀ hk2 : k + 1 < rows.length,
          rows[k].waktu < rows[k+1].waktu ∧ rows[k+1].waktu = rows[k].waktu + jeda)) := by
  constructor
  · intro hlt
    rw [generateGroupMatches, if_pos hlt]
  · intro hge
    rw [generateGroupMatches, if_neg (by omega)]
    refine ⟨_, _, rfl, ?_, rfl, ?_, ?_, ?_, ?_, ?_⟩
    · rw [List.length_map, List.enum_length, pairs_length]
    · intro r hr
      obtain ⟨kp, hkp, rfl⟩ := List.mem_map.mp hr
      exact ⟨rfl, rfl, rfl, rfl, rfl⟩
    · rw [List.map_map, pairs_map]
      have : ((fun r : MatchRow => (r.team_1, r.team_2)) ∘
          (fun kp : Nat × (GTeam × GTeam) =>
            mkFixture kat grup uid db.nextMatchId jamAwal jeda kp.1 kp.2)) =
          ((fun p : GTeam × GTeam => (p.1.id_team, p.2.id_team)) ∘ Prod.snd) := rfl
      rw [this, ← List.map_map, List.enum_map_snd]
    · intro a b ha hb hab
      have hmaps : (((pairs teams).enum.map
          (fun kp => mkFixture kat grup uid db.nextMatchId jamAwal jeda kp.1 kp.2)).map
            (fun r => (r.team_1, r.team_2))) = pairs (teams.map GTeam.id_team) := by
        rw [List.map_map, pairs_map]
        have : ((fun r : MatchRow => (r.team_1, r.team_2)) ∘
            (fun kp : Nat × (GTeam × GTeam) =>
              mkFixture kat grup uid db.nextMatchId jamAwal jeda kp.1 kp.2)) =
            ((fun p : GTeam × GTeam => (p.1.id_team, p.2.id_team)) ∘ Prod.snd) := rfl
        rw [this, ← List.map_map, List.enum_map_snd]
      rw [hmaps]
      exact count_pairs_once hnodup ha hb hab
    · intro k hk
      rw [rows_getElem db teams kat grup jamAwal jeda uid k hk (by simpa using hk)]
      rfl
    · intro k hk1 hk2
      rw [rows_getElem db teams kat grup jamAwal jeda uid k hk1 (by simpa using hk1)]
      rw [rows_getElem db teams kat grup jamAwal jeda uid (k+1) hk2 (by simpa using hk2)]
      constructor
      · show jamAwal + k * jeda < jamAwal + (k + 1) * jeda
        have : k * jeda < (k + 1) * jeda := by
          apply Nat.mul_lt_mul_of_lt_of_le <;> omega
        omega
      · show jamAwal + (k + 1) * jeda = jamAwal + k * jeda + jeda
        ring

/-- A four-team group, roster already in club-name order. -/
def teamsC5w : List GTeam :=
  [{ id_team := 11, nama_club := 1 }, { id_team := 12, nama_club := 2 },
   { id_team := 13, nama_club := 3 }, { id_team := 14, nama_club := 4 }]

def dbC5w : DB :=
  { «matches» := [], match_events := [], pemain_event := [], match_lineup := [],
    match_staff_lineup := [], event_categories := [], brackets := [], nextMatchId := 1 }

/-- Witness for `c5_generate_group`: a 4-team group (so the success branch
yields exactly 6 fixtures). -/
theorem c5_generate_group_witness :
    (teamsC5w.length < 2 →
      generateGroupMatches dbC5w teamsC5w 5 "A" 780 90 9 = .error .insufficientTeams) ∧
    (2 ≤ teamsC5w.length →
      ∃ db' rows, generateGroupMatches dbC5w teamsC5w 5 "A" 780 90 9 = .ok (db', rows) ∧
        rows.length = teamsC5w.length * (teamsC5w.length - 1) / 2 ∧
        db'.«matches» = dbC5w.«matches» ++ rows ∧
        (∀ r ∈ rows, r.status = MatchStatus.belum_main ∧ r.skor_1 = 0 ∧ r.skor_2 = 0 ∧
          r.grup = some "A" ∧ r.id_kategori = 5) ∧
        rows.map (fun r => (r.team_1, r.team_2)) = pairs (teamsC5w.map GTeam.id_team) ∧
        (∀ a b, a ∈ teamsC5w.map GTeam.id_team → b ∈ teamsC5w.map GTeam.id_team → a ≠ b →
          (rows.map (fun r => (r.team_1, r.team_2))).count (a, b) +
            (rows.map (fun r => (r.team_1, r.team_2))).count (b, a) = 1) ∧
        (∀ k, ∀ hk : k < rows.length, rows[k].waktu = 780 + k * 90) ∧
        (∀ k, ∀ hk1 : k < rows.length, ∀ hk2 : k + 1 < rows.length,
          rows[k].waktu < rows[k+1].waktu ∧ rows[k+1].waktu = rows[k].waktu + 90)) :=
  c5_generate_group dbC5w teamsC5w 5 "A" 780 90 9 (by decide) (by decide) (by decide)

/-! ## C6 / C7 — bracket seeding

`standings` is the result of the `klasemen` query
(`ORDER BY et.grup, k.point DESC, k.selisih DESC, k.goal_masuk DESC`).
JavaScript's `Array.prototype.sort` is stable (ES2019) and the comparator is
a consistent total preorder, so the sort is modelled by the stable
`List.insertionSort` with the comparator's non-strict relation. -/

/-- A row of the standings query (`klasemen` joined with `event_teams`). -/
structure StandingRow where
  id_team : Nat
  point : Int
  selisih : Int
  goal_masuk : Int
  grup : String
deriving Repr, DecidableEq

/-- The JS comparator of `generateBracketMatches` as a strict "a sorts
before b": points descending, then goal difference, then goals scored. -/
def ltTeam (a b : StandingRow) : Bool :=
  decide (b.point < a.point) ||
  (decide (a.point = b.point) && (decide (b.selisih < a.selisih) ||
    (decide (a.selisih = b.selisih) && decide (b.goal_masuk < a.goal_masuk))))

/-- Non-strict version used by the stable sort: `b` does not sort strictly
before `a`. -/
def leTeam (a b : StandingRow) : Prop := ltTeam b a = false

instance : DecidableRel leTeam := fun a b => instDecidableEqBool (ltTeam b a) false

/-- The ordering the specification words describe. -/
def rankBefore (a b : StandingRow) : Prop :=
  b.point < a.point ∨ (a.point = b.point ∧ (b.selisih < a.selisih ∨
    (a.selisih = b.selisih ∧ b.goal_masuk < a.goal_masuk)))

theorem ltTeam_iff_rankBefore (a b : StandingRow) : ltTeam a b = true ↔ rankBefore a b := by
  simp [ltTeam, rankBefore]

theorem ltTeam_false_iff (a b : StandingRow) : ltTeam a b = false ↔ ¬ rankBefore a b := by
  rw [← ltTeam_iff_rankBefore]
  cases h : ltTeam a b <;> simp

instance : IsTotal StandingRow leTeam := ⟨by
  intro a b
  unfold leTeam
  rw [ltTeam_false_iff, ltTeam_false_iff]
  unfold rankBefore
  omega⟩

instance : IsTrans StandingRow leTeam := ⟨by
  intro a b c hab hbc
  unfold leTeam at *
  rw [ltTeam_false_iff] at *
  unfold rankBefore at *
  omega⟩

/-- Full tie under the comparator: all three keys equal. -/
def tieB (v w : StandingRow) : Bool :=
  decide (v.point = w.point) && decide (v.selisih = w.selisih) &&
    decide (v.goal_masuk = w.goal_masuk)

theorem tie_le {v x b : StandingRow} (h1 : tieB v x = true) (h2 : tieB v b = true) :
    leTeam x b := by
  unfold tieB at h1 h2
  unfold leTeam
  rw [ltTeam_false_iff]
  unfold rankBefore
  simp only [Bool.and_eq_true, decide_eq_true_eq] at h1 h2
  omega

theorem filter_orderedInsert_pos (p : StandingRow → Bool) (x : StandingRow)
    (hall : ∀ b, p b = true → leTeam x b) (hx : p x = true) :
    ∀ l : List StandingRow, (List.orderedInsert leTeam x l).filter p = x :: l.filter p := by
  intro l
  induction l with
  | nil => simp [List.orderedInsert, hx]
  | cons b t ih =>
    rw [List.orderedInsert]
    by_cases hr : leTeam x b
    · rw [if_pos hr, List.filter_cons, List.filter_cons]
      simp [hx]
    · rw [if_neg hr]
      have hpb : p b = false := by
        cases hpb : p b
        · rfl
        · exact absurd (hall b hpb) hr
      rw [List.filter_cons, List.filter_cons, hpb]
      simp only [Bool.false_eq_true, if_false]
      exact ih

theorem filter_orderedInsert_neg (p : StandingRow → Bool) (x : StandingRow) (hx : p x = false) :
    ∀ l : List StandingRow, (List.orderedInsert leTeam x l).filter p = l.filter p := by
  intro l
  induction l with
  | nil => simp [List.orderedInsert, hx]
  | cons b t ih =>
    rw [List.orderedInsert]
    by_cases hr : leTeam x b
    · rw [if_pos hr, List.filter_cons, List.filter_cons, hx]
      simp
    · rw [if_neg hr, List.filter_cons, List.filter_cons]
      rw [ih]

/-- Stability of the modelled sort: the elements fully tied with any given
key vector keep exactly their original relative order. -/
theorem insertionSort_filter_tie (v : StandingRow) :
    ∀ l : List StandingRow,
      (List.insertionSort leTeam l).filter (tieB v) = l.filter (tieB v) := by
  intro l
  induction l with
  | nil => rfl
  | cons x t ih =>
    rw [List.insertionSort]
    cases hx : tieB v x with
    | true =>
      rw [filter_orderedInsert_pos (tieB v) x (fun b hb => tie_le hx hb) hx, ih,
        List.filter_cons, hx]
      simp
    | false =>
      rw [filter_orderedInsert_neg (tieB v) x hx, ih, List.filter_cons, hx]
      simp

/-- The group keys in order of first appearance in the standings (the
insertion order of the `groupStandings` object). -/
def groupsIn (standings : List StandingRow) : List String :=
  standings.foldl (fun acc t => if t.grup ∈ acc then acc else acc ++ [t.grup]) []

/-- `Object.values(groupStandings).flat()`: for each group in insertion
order, its first two standings rows (the per-group top 2, since the query
sorts within each group). -/
def qualifiedTeams (standings : List StandingRow) : List StandingRow :=
  (groupsIn standings).flatMap (fun g => (standings.filter (fun t => t.grup == g)).take 2)

/-- The tournament-wide re-ranking: stable sort by the comparator, then the
`slice(0, 4)`. -/
def sortedQualified (standings : List StandingRow) : List StandingRow :=
  (List.insertionSort leTeam (qualifiedTeams standings)).take 4

/-- A created semifinal, as returned to the caller. -/
structure SemifinalRow where
  id : Nat
  round : String
  kode : String
  team_1 : Nat
  team_2 : Nat
deriving Repr, DecidableEq

/-- `sortedTeams[i]` (JS indexing; out of range never happens under the
length-≥-4 guard). -/
def seedTeam (standings : List StandingRow) (i : Nat) : Nat :=
  (((sortedQualified standings)[i]?).getD
    { id_team := 0, point := 0, selisih := 0, goal_masuk := 0, grup := "" }).id_team

/-- `MatchService.generateBracketMatches` (transaction body): checks the
category is configured `final_four`, takes the per-group top 2, re-ranks,
then inserts the two semifinal matches (seed 1 vs 4 as `SF1`, seed 2 vs 3 as
`SF2`), their bracket rows, and the `final` / `juara_3` placeholders.
The bracket `INSERT INTO matches` has no `waktu` column; the field is 0
here. -/
def generateBracketMatches (db : DB) (standings : List StandingRow) (id_kategori uid : Nat) :
    Except AppErr (DB × List SemifinalRow) :=
  match db.event_categories.find? (fun c => c.id == id_kategori) with
  | none => .error .categoryNotFound
  | some category =>
    if category.tipe_final ≠ "final_four" then .error .unsupportedFormat
    else
      if (qualifiedTeams standings).length < 4 then .error .insufficientQualifiers
      else
        let t := seedTeam standings
        let m1 : MatchRow :=
          { id := db.nextMatchId, id_kategori := id_kategori, team_1 := t 0, team_2 := t 3,
            waktu := 0, grup := some "semifinal", status := .belum_main, skor_1 := 0,
            skor_2 := 0, created_by := uid, updated_by := none }
        let m2 : MatchRow :=
          { id := db.nextMatchId + 1, id_kategori := id_kategori, team_1 := t 1, team_2 := t 2,
            waktu := 0, grup := some "semifinal", status := .belum_main, skor_1 := 0,
            skor_2 := 0, created_by := uid, updated_by := none }
        let b1 : BracketRow :=
          { id_kategori := id_kategori, round := "semifinal", kode := "SF1",
            team_1 := some (t 0), team_2 := some (t 3), match_id := some m1.id,
            status := "belum_main" }
        let b2 : BracketRow :=
          { id_kategori := id_kategori, round := "semifinal", kode := "SF2",
            team_1 := some (t 1), team_2 := some (t 2), match_id := some m2.id,
            status := "belum_main" }
        let bf : BracketRow :=
          { id_kategori := id_kategori, round := "final", kode := "F1", team_1 := none,
            team_2 := none, match_id := none, status := "menunggu" }
        let bj : BracketRow :=
          { id_kategori := id_kategori, round := "juara_3", kode := "J3", team_1 := none,
            team_2 := none, match_id := none, status := "menunggu" }
        let db2 : DB := { db with «matches» := db.«matches» ++ [m1, m2], brackets := db.brackets ++ [b1, b2, bf, bj], nextMatchId := db.nextMatchId + 2 }
        Except.ok (db2,
          [{ id := m1.id, round := "semifinal", kode := "SF1", team_1 := t 0, team_2 := t 3 },
           { id := m2.id, round := "semifinal", kode := "SF2", team_1 := t 1, team_2 := t 2 }])

/-- `generateBracketMatches` through `database.transaction`. -/
def generateBracketMatchesTx (db : DB) (standings : List StandingRow) (id_kategori uid : Nat) :
    DB × Except AppErr (List SemifinalRow) :=
  match generateBracketMatches db standings id_kategori uid with
  | .error err => (db, .error err)
  | .ok (db', out) => (db', .ok out)

/-- The §8 example: group A holds A (9 pts, +5) and C (6 pts, +1); group B
holds B (9 pts, +2) and D (3 pts, -1); rows in the standings-query order
(`grup`, then points desc). -/
def stdC6 : List StandingRow :=
  [{ id_team := 1, point := 9, selisih := 5, goal_masuk := 10, grup := "A" },
   { id_team := 3, point := 6, selisih := 1, goal_masuk := 6, grup := "A" },
   { id_team := 2, point := 9, selisih := 2, goal_masuk := 8, grup := "B" },
   { id_team := 4, point := 3, selisih := -1, goal_masuk := 3, grup := "B" }]

def dbC6 : DB :=
  { «matches» := [], match_events := [], pemain_event := [], match_lineup := [],
    match_staff_lineup := [], event_categories := [{ id := 5, tipe_final := "final_four" }],
    brackets := [], nextMatchId := 30 }

def bracketC6 : DB × List SemifinalRow :=
  match generateBracketMatches dbC6 stdC6 5 9 with
  | .ok p => p
  | .error _ => (dbC6, [])

/-- C6: the re-ranking is a permutation of the qualified set, sorted by
points desc / goal difference desc / goals desc, and stable (full ties keep
their original relative order); on the §8 standings the tournament-wide rank
is A,B,C,D and the semifinals pair A–D (`SF1`) and B–C (`SF2`). -/
theorem c6_bracket_seeding :
    (∀ l : List StandingRow, (List.insertionSort leTeam l).Perm l) ∧
    (∀ l : List StandingRow,
      (List.insertionSort leTeam l).Pairwise (fun a b => ¬ rankBefore b a)) ∧
    (∀ (l : List StandingRow) (v : StandingRow),
      (List.insertionSort leTeam l).filter (tieB v) = l.filter (tieB v)) ∧
    (sortedQualified stdC6).map StandingRow.id_team = [1, 2, 3, 4] ∧
    generateBracketMatches dbC6 stdC6 5 9 = .ok bracketC6 ∧
    bracketC6.2.map (fun s => (s.team_1, s.team_2, s.kode)) =
      [(1, 4, "SF1"), (2, 3, "SF2")] := by
  refine ⟨fun l => List.perm_insertionSort leTeam l, fun l => ?_,
    fun l v => insertionSort_filter_tie v l, by decide, by decide, by decide⟩
  have hs := List.sorted_insertionSort leTeam l
  exact List.Pairwise.imp (fun hab => (ltTeam_false_iff _ _).mp hab) hs

/-- C7: with the category found, a non-`final_four` configuration fails with
`UnsupportedFormat`, fewer than 4 qualifiers (top 2 per group) fails with
`InsufficientQualifiers`, and every failure path commits nothing: the store
the caller sees is exactly the original (no Match or Bracket rows). -/
theorem c7_bracket_failure_guards (db : DB) (standings : List StandingRow) (kat uid : Nat)
    (cat : CategoryRow)
    (hcat : db.event_categories.find? (fun c => c.id == kat) = some cat) :
    (cat.tipe_final ≠ "final_four" →
      generateBracketMatchesTx db standings kat uid = (db, .error .unsupportedFormat)) ∧
    (cat.tipe_final = "final_four" → (qualifiedTeams standings).length < 4 →
      generateBracketMatchesTx db standings kat uid = (db, .error .insufficientQualifiers)) ∧
    (∀ err, generateBracketMatches db standings kat uid = .error err →
      generateBracketMatchesTx db standings kat uid = (db, .error err)) := by
  refine ⟨?_, ?_, ?_⟩
  · intro hne
    have h : generateBracketMatches db standings kat uid = .error .unsupportedFormat := by
      simp only [generateBracketMatches, hcat]
      rw [if_pos hne]
    simp only [generateBracketMatchesTx, h]
  · intro hff hlen
    have h : generateBracketMatches db standings kat uid = .error .insufficientQualifiers := by
      simp only [generateBracketMatches, hcat]
      rw [if_neg (by rw [hff]; intro hc; exact hc rfl), if_pos hlen]
    simp only [generateBracketMatchesTx, h]
  · intro err herr
    simp only [generateBracketMatchesTx, herr]

def dbC7w : DB :=
  { «matches» := [], match_events := [], pemain_event := [], match_lineup := [],
    match_staff_lineup := [],
    event_categories := [{ id := 5, tipe_final := "single_group" }], brackets := [],
    nextMatchId := 1 }

def catC7w : CategoryRow := { id := 5, tipe_final := "single_group" }

/-- Witness for `c7_bracket_failure_guards`: a category not configured for
the four-team knockout is rejected with no rows created. -/
theorem c7_bracket_failure_guards_witness :
    (catC7w.tipe_final ≠ "final_four" →
      generateBracketMatchesTx dbC7w [] 5 9 = (dbC7w, .error .unsupportedFormat)) ∧
    (catC7w.tipe_final = "final_four" → (qualifiedTeams []).length < 4 →
      generateBracketMatchesTx dbC7w [] 5 9 = (dbC7w, .error .insufficientQualifiers)) ∧
    (∀ err, generateBracketMatches dbC7w [] 5 9 = .error err →
      generateBracketMatchesTx dbC7w [] 5 9 = (dbC7w, .error err)) :=
  c7_bracket_failure_guards dbC7w [] 5 9 catC7w (by decide)

/-! ## C8 / C9 — broadcast coordinator (`src/socket/index.js`)

Rooms and client origins are `Nat` ids; times are milliseconds
(`Date.now()`) as `Nat`.  JS `Map.set` is modelled by `setKey` on an
association list. -/

/-- `Map.set`: replace the binding of `k`, or append it. -/
def setKey {β : Type} : List (Nat × β) → Nat → β → List (Nat × β)
  | [], k, v => [(k, v)]
  | (k', v') :: rest, k, v =>
    if k' = k then (k, v) :: rest else (k', v') :: setKey rest k v

theorem lookup_setKey {β : Type} (k : Nat) (v : β) :
    ∀ l : List (Nat × β), (setKey l k v).lookup k = some v := by
  intro l
  induction l with
  | nil => simp [setKey, List.lookup]
  | cons kv rest ih =>
    obtain ⟨k', v'⟩ := kv
    rw [setKey]
    by_cases hk : k' = k
    · rw [if_pos hk]
      simp [List.lookup]
    · rw [if_neg hk]
      rw [List.lookup]
      have : (k == k') = false := by
        simp only [beq_eq_false_iff_ne, ne_eq]
        exact fun h => hk h.symm
      rw [this]
      exact ih

/-- One connection's room-joining state: `joinCooldowns` (keyed by room,
since the map lives in the per-socket closure and the key is
`socket.id + room`) and the set of joined rooms. -/
structure ConnSubState where
  cooldowns : List (Nat × Nat)
  rooms : List Nat
deriving Repr, DecidableEq

/-- `socket.join` (room membership is a set: joining twice is one
membership). -/
def joinRoom (rooms : List Nat) (r : Nat) : List Nat :=
  if r ∈ rooms then rooms else rooms ++ [r]

/-- `SocketService.joinWithCooldown`: measured from the stored timestamp,
which is written only on *accepted* joins. -/
def joinWithCooldown (st : ConnSubState) (room now cooldownMs : Nat) : ConnSubState :=
  let lastJoin := (st.cooldowns.lookup room).getD 0
  if now - lastJoin < cooldownMs then st
  else { cooldowns := setKey st.cooldowns room now, rooms := joinRoom st.rooms room }

/-- `leave_match` / `leave_category`: `socket.leave(room)`. -/
def leaveRoom (st : ConnSubState) (room : Nat) : ConnSubState :=
  { st with rooms := st.rooms.filter (fun r => !(r == room)) }

/-- A room request of one connection. -/
inductive SubReq where
  | join (room now : Nat)
  | leave (room : Nat)
deriving Repr, DecidableEq

/-- `join_match`/`join_category` use a 2000 ms cooldown. -/
def stepReq (st : ConnSubState) : SubReq → ConnSubState
  | .join room now => joinWithCooldown st room now 2000
  | .leave room => leaveRoom st room

/-- Claim C8 as stated: a subscribe issued within 2 s of the *previous
subscribe request* (whatever its outcome) is a no-op on the connection's
state. -/
def C8Statement : Prop :=
  ∀ (st : ConnSubState) (room t1 t2 : Nat),
    t2 - t1 < 2000 →
    stepReq (stepReq st (SubReq.join room t1)) (SubReq.join room t2) =
      stepReq st (SubReq.join room t1)

/-- C8 as stated is false: after an accepted join at 10000 (and a leave), a
rejected re-join at 11900 does not refresh the stored timestamp, so a third
request at 13000 — only 1100 ms after the previous request — is accepted and
changes the subscription state.  The cooldown is measured from the last
*accepted* subscribe, not the last request. -/
theorem c8_claim_counterexample : ¬ C8Statement := by
  intro h
  have := h { cooldowns := [(7, 10000)], rooms := [] } 7 11900 13000 (by decide)
  exact absurd this (by decide)

/-- C8 amended: a subscribe within the 2 s window of the last *accepted*
subscribe for the topic is silently rejected as a no-op; hence after an
accepted subscribe, a second subscribe inside the window leaves exactly one
active subscription, and if the client unsubscribed in between it stays
unsubscribed. -/
theorem c8_join_cooldown (st : ConnSubState) (room t1 t2 : Nat) :
    (∀ tAcc, st.cooldowns.lookup room = some tAcc → t2 - tAcc < 2000 →
      stepReq st (SubReq.join room t2) = st) ∧
    (2000 ≤ t1 - (st.cooldowns.lookup room).getD 0 → t2 - t1 < 2000 →
      (stepReq (stepReq st (SubReq.join room t1)) (SubReq.join room t2) =
        stepReq st (SubReq.join room t1)) ∧
      (room ∉ st.rooms →
        (stepReq (stepReq st (SubReq.join room t1)) (SubReq.join room t2)).rooms.count room
          = 1)) ∧
    (2000 ≤ t1 - (st.cooldowns.lookup room).getD 0 → t2 - t1 < 2000 →
      room ∉ (stepReq (stepReq (stepReq st (SubReq.join room t1)) (SubReq.leave room))
        (SubReq.join room t2)).rooms) := by
  have hstep1 : 2000 ≤ t1 - (st.cooldowns.lookup room).getD 0 →
      stepReq st (SubReq.join room t1) =
        { cooldowns := setKey st.cooldowns room t1, rooms := joinRoom st.rooms room } := by
    intro hacc
    rw [stepReq, joinWithCooldown]
    rw [if_neg (by omega)]
  refine ⟨?_, ?_, ?_⟩
  · intro tAcc hAcc hwin
    rw [stepReq, joinWithCooldown, hAcc]
    rw [if_pos (by simpa using hwin)]
  · intro hacc hwin
    rw [hstep1 hacc]
    have hnoop : stepReq { cooldowns := setKey st.cooldowns room t1, rooms := joinRoom st.rooms room } (SubReq.join room t2) = { cooldowns := setKey st.cooldowns room t1, rooms := joinRoom st.rooms room } := by
      rw [stepReq, joinWithCooldown]
      rw [lookup_setKey]
      rw [if_pos (by simpa using hwin)]
    refine ⟨hnoop, ?_⟩
    intro hnotin
    rw [hnoop]
    show (joinRoom st.rooms room).count room = 1
    rw [joinRoom, if_neg hnotin, List.count_append]
    rw [List.count_eq_zero.mpr hnotin]
    simp
  · intro hacc hwin
    rw [hstep1 hacc]
    have hleave : stepReq { cooldowns := setKey st.cooldowns room t1, rooms := joinRoom st.rooms room } (SubReq.leave room) = { cooldowns := setKey st.cooldowns room t1, rooms := (joinRoom st.rooms room).filter (fun r => !(r == room)) } := rfl
    rw [hleave]
    rw [stepReq, joinWithCooldown]
    rw [lookup_setKey]
    rw [if_pos (by simpa using hwin)]
    intro hmem
    have := List.of_mem_filter hmem
    simp at this

def stC8w : ConnSubState := { cooldowns := [], rooms := [] }

/-- Witness for `c8_join_cooldown`: fresh connection, accepted subscribe at
t=5000, re-subscribes at t=6000 inside the window. -/
theorem c8_join_cooldown_witness :
    (∀ tAcc, stC8w.cooldowns.lookup 7 = some tAcc → 6000 - tAcc < 2000 →
      stepReq stC8w (SubReq.join 7 6000) = stC8w) ∧
    (2000 ≤ 5000 - (stC8w.cooldowns.lookup 7).getD 0 → 6000 - 5000 < 2000 →
      (stepReq (stepReq stC8w (SubReq.join 7 5000)) (SubReq.join 7 6000) =
        stepReq stC8w (SubReq.join 7 5000)) ∧
      (7 ∉ stC8w.rooms →
        (stepReq (stepReq stC8w (SubReq.join 7 5000)) (SubReq.join 7 6000)).rooms.count 7
          = 1)) ∧
    (2000 ≤ 5000 - (stC8w.cooldowns.lookup 7).getD 0 → 6000 - 5000 < 2000 →
      7 ∉ (stepReq (stepReq (stepReq stC8w (SubReq.join 7 5000)) (SubReq.leave 7))
        (SubReq.join 7 6000)).rooms) :=
  c8_join_cooldown stC8w 7 5000 6000

/-- A per-origin quota entry of the `connections` map. -/
structure ConnEntry where
  count : Nat
  lastReset : Nat
deriving Repr, DecidableEq

/-- The socket server's shared state: the per-origin quota map and the
established connections (socketId, clientId). -/
structure SocketServerState where
  connections : List (Nat × ConnEntry)
  sockets : List (Nat × Nat)
deriving Repr, DecidableEq

/-- The rate-limiting middleware of `SocketService.setupMiddleware`, acting
on the quota map; returns the new map and whether the handshake is admitted
(`next()` vs `next(new Error('Rate limit exceeded'))`). -/
def rateLimitStep (conns : List (Nat × ConnEntry)) (clientId now : Nat) :
    List (Nat × ConnEntry) × Bool :=
  match conns.lookup clientId with
  | none => (setKey conns clientId { count := 1, lastReset := now }, true)
  | some client =>
    if now - client.lastReset > 60000 then
      (setKey conns clientId { count := 1, lastReset := now }, true)
    else if client.count ≥ 50 then (conns, false)
    else (setKey conns clientId { client with count := client.count + 1 }, true)

/-- One connection attempt: the middleware admits or rejects the handshake;
an admitted socket is added to the established set, a rejected one changes
nothing and no existing socket is removed. -/
def connectAttempt (s : SocketServerState) (clientId sockId now : Nat) :
    SocketServerState × Bool :=
  let result := rateLimitStep s.connections clientId now
  if result.2 then
    ({ connections := result.1, sockets := s.sockets ++ [(sockId, clientId)] }, true)
  else
    ({ s with connections := result.1 }, false)

/-- C9: admission is per client origin with quota 50 per one-minute window:
once an origin's counter has reached the quota inside the window, a new
handshake is rejected leaving the whole state — in particular the already
established sockets — untouched; once the minute has elapsed the quota entry
is reset to 1 and the handshake admitted; below the quota the counter
increments and the handshake is admitted. -/
theorem c9_admission_quota (s : SocketServerState) (clientId sockId now : Nat) :
    (∀ c, s.connections.lookup clientId = some c → c.count ≥ 50 →
      now - c.lastReset ≤ 60000 →
      connectAttempt s clientId sockId now = (s, false)) ∧
    (∀ c, s.connections.lookup clientId = some c → now - c.lastReset > 60000 →
      connectAttempt s clientId sockId now =
        ({ connections := setKey s.connections clientId { count := 1, lastReset := now }, sockets := s.sockets ++ [(sockId, clientId)] }, true)) ∧
    (∀ c, s.connections.lookup clientId = some c → now - c.lastReset ≤ 60000 →
      c.count < 50 →
      connectAttempt s clientId sockId now =
        ({ connections := setKey s.connections clientId { count := c.count + 1, lastReset := c.lastReset }, sockets := s.sockets ++ [(sockId, clientId)] }, true)) := by
  refine ⟨?_, ?_, ?_⟩
  · intro c hc hcount hwin
    have hrl : rateLimitStep s.connections clientId now = (s.connections, false) := by
      simp only [rateLimitStep, hc]
      rw [if_neg (by omega), if_pos hcount]
    simp [connectAttempt, hrl]
  · intro c hc hwin
    have hrl : rateLimitStep s.connections clientId now =
        (setKey s.connections clientId { count := 1, lastReset := now }, true) := by
      simp only [rateLimitStep, hc]
      rw [if_pos hwin]
    simp [connectAttempt, hrl]
  · intro c hc hwin hcount
    have hrl : rateLimitStep s.connections clientId now =
        (setKey s.connections clientId { count := c.count + 1, lastReset := c.lastReset }, true) := by
      simp only [rateLimitStep, hc]
      rw [if_neg (by omega), if_neg (by omega)]
    simp [connectAttempt, hrl]

def sC9w : SocketServerState :=
  { connections := [(77, { count := 50, lastReset := 100000 })],
    sockets := [(1, 77), (2, 77)] }

/-- Witness for `c9_admission_quota`: origin 77 has exhausted its quota; a
new handshake 30 s into the window is rejected and its two established
sockets stay; 61 s in, the quota resets. -/
theorem c9_admission_quota_witness :
    (∀ c, sC9w.connections.lookup 77 = some c → c.count ≥ 50 →
      130000 - c.lastReset ≤ 60000 →
      connectAttempt sC9w 77 3 130000 = (sC9w, false)) ∧
    (∀ c, sC9w.connections.lookup 77 = some c → 130000 - c.lastReset > 60000 →
      connectAttempt sC9w 77 3 130000 =
        ({ connections := setKey sC9w.connections 77 { count := 1, lastReset := 130000 }, sockets := sC9w.sockets ++ [(3, 77)] }, true)) ∧
    (∀ c, sC9w.connections.lookup 77 = some c → 130000 - c.lastReset ≤ 60000 →
      c.count < 50 →
      connectAttempt sC9w 77 3 130000 =
        ({ connections := setKey sC9w.connections 77 { count := c.count + 1, lastReset := c.lastReset }, sockets := sC9w.sockets ++ [(3, 77)] }, true)) :=
  c9_admission_quota sC9w 77 3 130000
